import Mathlib

set_option maxRecDepth 2048

/-!
Verification of the text-augmentation pipeline in `code/augment_text.py`.

The Python module is shallowly embedded here:

* the process-wide `random` generator is an explicit state (`Rng`) threaded
  through every operation, seeded once per run (`seedRng`), with one generator
  word per underlying `genrand_uint32` call in the source's call order; the
  generator itself is CPython's Mersenne Twister (MT19937), embedded
  word-exactly: `random.seed` via `init_by_array`, `random.random()` as the
  53-bit fraction of two words, and `random.randrange` via the
  `getrandbits`-with-rejection loop of `Random._randbelow`;
* probabilities and the growth factor are exact rationals (`ℚ`); the
  comparison `random.random() < p` is carried out on integers so that every
  definition evaluates inside the kernel;
* the regular-expression passes (`_NUM_RE.sub`, the per-filler
  `re.sub(rf"\b{re.escape(f)}[,. ]*", "", ...)`, and `re.sub(r"\s+", " ", ...)`)
  are embedded as left-to-right scanners over the character list;
* reading the input CSV and writing the output CSV are external collaborators:
  `run_augment` receives the already-parsed table and returns the rows that
  would be written; a raised `ValueError` is the `Except.error` case.
-/

/-! ## The pseudo-random generator: CPython's MT19937 -/

/-- The 32-bit word mask. -/
def mtMask : ℕ := 4294967295

/-- The Mersenne Twister holds 624 32-bit words; they are packed little-endian
into one natural number, word `i` occupying bits `32*i` to `32*i + 31`. -/
def mtGet (s : ℕ) (i : ℕ) : ℕ := (s >>> (32 * i)) &&& mtMask

/-- Overwrite word `i` of the packed state (the new word is below 2^32). -/
def mtSet (s : ℕ) (i v : ℕ) : ℕ := s - ((mtGet s i) <<< (32 * i)) + (v <<< (32 * i))

/-- Iterate a step function a fixed number of times, the embedding of the
fixed-count `for` loops of the C implementation. -/
def iterN {α : Type} (f : α → α) : ℕ → α → α
  | 0, s => s
  | k + 1, s => iterN f k (f s)

/-- The MT19937 output tempering of `genrand_uint32`. -/
def temper (y : ℕ) : ℕ :=
  let y1 := y ^^^ (y >>> 11)
  let y2 := y1 ^^^ ((y1 <<< 7) &&& 2636928640)
  let y3 := y2 ^^^ ((y2 <<< 15) &&& 4022730752)
  y3 ^^^ (y3 >>> 18)

/-- One iteration of `init_genrand`: word `i+1` is derived from word `i`. -/
def initStep (acc : ℕ × ℕ) : ℕ × ℕ :=
  let prev := mtGet acc.1 acc.2
  (mtSet acc.1 (acc.2 + 1)
    ((1812433253 * (prev ^^^ (prev >>> 30)) + (acc.2 + 1)) &&& mtMask),
   acc.2 + 1)

/-- `init_genrand(s)`: fill the state from the 32-bit seed word. -/
def initGenrand (seed0 : ℕ) : ℕ := (iterN initStep 623 (seed0 &&& mtMask, 0)).1

/-- One iteration of the first `init_by_array` mixing loop, carrying the
packed state and the cursors `i` (state) and `j` (key). -/
def seedStep1 (key : List ℕ) (acc : ℕ × ℕ × ℕ) : ℕ × ℕ × ℕ :=
  let st := acc.1
  let i := acc.2.1
  let j := acc.2.2
  let prev := mtGet st (i - 1)
  let v := ((mtGet st i ^^^ (((prev ^^^ (prev >>> 30)) * 1664525) &&& mtMask))
      + key.getD j 0 + j) &&& mtMask
  let st1 := mtSet st i v
  let st2 := if i + 1 ≥ 624 then mtSet st1 0 (mtGet st1 623) else st1
  let i2 := if i + 1 ≥ 624 then 1 else i + 1
  let j2 := if j + 1 ≥ key.length then 0 else j + 1
  (st2, i2, j2)

/-- One iteration of the second `init_by_array` mixing loop (32-bit wrapping
subtraction of the cursor). -/
def seedStep2 (acc : ℕ × ℕ) : ℕ × ℕ :=
  let st := acc.1
  let i := acc.2
  let prev := mtGet st (i - 1)
  let x := mtGet st i ^^^ (((prev ^^^ (prev >>> 30)) * 1566083941) &&& mtMask)
  let st1 := mtSet st i ((x + 4294967296 - i) &&& mtMask)
  let st2 := if i + 1 ≥ 624 then mtSet st1 0 (mtGet st1 623) else st1
  let i2 := if i + 1 ≥ 624 then 1 else i + 1
  (st2, i2)

/-- The first `init_by_array` loop: `max(624, len(key))` iterations starting
from the `init_genrand(19650218)` state with cursors `i = 1`, `j = 0`. -/
def seedLoop1 (key : List ℕ) : ℕ × ℕ × ℕ :=
  iterN (seedStep1 key) (max 624 key.length) (initGenrand 19650218, 1, 0)

/-- The second `init_by_array` loop: 623 iterations from where the first
stopped. -/
def seedLoop2 (key : List ℕ) : ℕ × ℕ :=
  iterN seedStep2 623 ((seedLoop1 key).1, (seedLoop1 key).2.1)

/-- `init_by_array(key)`: both mixing loops, then `mt[0] = 0x80000000`. -/
def initByArray (key : List ℕ) : ℕ := mtSet (seedLoop2 key).1 0 2147483648

/-- One iteration of the in-place block regeneration of `genrand_uint32`
(uniform over `kk = 0 .. 623` thanks to the wraparound indices; later words
read the words already rewritten, as in the C code). -/
def twistStep (acc : ℕ × ℕ) : ℕ × ℕ :=
  let s := acc.1
  let kk := acc.2
  let y := ((mtGet s kk) &&& 2147483648) ||| ((mtGet s ((kk + 1) % 624)) &&& 2147483647)
  let v := (mtGet s ((kk + 397) % 624)) ^^^ (y >>> 1) ^^^
    (if y % 2 = 1 then 2567483615 else 0)
  (mtSet s kk v, kk + 1)

/-- Regenerate the whole 624-word block. -/
def twist (s : ℕ) : ℕ := (iterN twistStep 624 (s, 0)).1

/-- State of the single process-wide generator of the `random` module: the
packed 624-word Mersenne Twister block and the output index. -/
structure Rng where
  state : ℕ
  index : ℕ
deriving DecidableEq

/-- `genrand_uint32`: regenerate the block when it is exhausted, then hand out
the next tempered word. -/
def Rng.next (r : Rng) : ℕ × Rng :=
  if r.index ≥ 624 then
    (temper (mtGet (twist r.state) 0), ⟨twist r.state, 1⟩)
  else
    (temper (mtGet r.state r.index), ⟨r.state, r.index + 1⟩)

/-- The 32-bit little-endian chunks of a seed integer (fuelled; at least one
chunk, as in CPython's `random_seed`). -/
def intKeyF : ℕ → ℕ → List ℕ
  | 0, n => [n &&& mtMask]
  | fuel + 1, n => if n < 4294967296 then [n] else (n &&& mtMask) :: intKeyF fuel (n >>> 32)

/-- The `init_by_array` key of a seed integer. -/
def intKey (n : ℕ) : List ℕ := intKeyF n n

/-- Models `random.seed(seed)` at the start of `run_augment`: CPython seeds
from the absolute value of the integer and sets the index to 624 so that the
first draw regenerates the block. -/
def seedRng (seed : ℤ) : Rng := ⟨initByArray (intKey seed.natAbs), 624⟩

/-- Models `random.random()`: the numerator of the draw over 2^53, built from
the top 27 and 26 bits of two consecutive words (`random_random` of the C
module computes exactly `(a >> 5) * 2^26 + (b >> 6)` over 2^53). -/
def Rng.random (r : Rng) : ℕ × Rng :=
  (((r.next).1 >>> 5) * 67108864 + (((r.next).2.next).1 >>> 6), ((r.next).2.next).2)

/-- Models the comparison `random.random() < p`: the draw is the exact
rational `num / 2^53`, so the comparison is carried out on integers
(`num * p.den < p.num * 2^53`), which is equivalent since the denominator is
positive. -/
def Rng.bern (r : Rng) (p : ℚ) : Bool × Rng :=
  (decide (((r.random).1 : ℤ) * p.den < p.num * 9007199254740992), (r.random).2)

/-- Models `random.getrandbits(k)` for `0 < k ≤ 32`: the top `k` bits of one
word. -/
def Rng.getrandbits (r : Rng) (k : ℕ) : ℕ × Rng :=
  ((r.next).1 >>> (32 - k), (r.next).2)

/-- Python's `int.bit_length` (fuelled structural recursion; the fuel `n`
suffices since the argument halves each step). -/
def bitLengthF : ℕ → ℕ → ℕ
  | 0, _ => 0
  | fuel + 1, n => if n = 0 then 0 else bitLengthF fuel (n / 2) + 1

/-- Python's `n.bit_length()`. -/
def bitLength (n : ℕ) : ℕ := bitLengthF n n

/-- Models `Random._randbelow_with_getrandbits(n)`: draw `n.bit_length()` bits
and retry while the draw is not below `n`. The retry loop of the source is
unbounded; the fuel bounds it here, returning 0 on exhaustion (never reached
with positive fuel probability mass, and immaterial to every statement, which
only needs the result to lie below `n`). -/
def randbelowF (n : ℕ) : ℕ → Rng → ℕ × Rng
  | 0, r => (0, r)
  | fuel + 1, r =>
    let a := r.getrandbits (bitLength n)
    if a.1 < n then (a.1, a.2) else randbelowF n fuel a.2

/-- Models `random.randrange(n)` for `n > 0` (CPython delegates to
`_randbelow`). -/
def Rng.range (r : Rng) (n : ℕ) : ℕ × Rng := randbelowF n 1000 r

/-! ### Concrete generator states of seed 42

The packed states below are the blocks that `random.seed(42)` steps through —
after `init_genrand(19650218)`, after each `init_by_array` mixing loop on the
key `[42]`, the final seeded block, and the block after its first
regeneration — together with intermediate checkpoints of each loop every 156
iterations. Each is certified against the definitions above by a staged lemma
in the theorem part of this file (`initGenrand_19650218`, `seedLoop1_42`,
`seedLoop2_42`, `initByArray_42`, `seedRng_42`, `twist_42`); the checkpoints
let every single certification force only a bounded stretch of the loop. -/


/-- Checkpoint: `init_genrand(19650218)` after 156 of its 623 iterations. -/
def mtI1 : ℕ :=
  1051003669168937840174092018795272339192746317798327910538030579399801258022378402307657604890572486852775857285124622565306229469260776735250744768334774378547984676541891960820741005776210163729257153279155160132186270149162573312697940328421944621607374017230685808946788454587221502386517096679481521625654717224151489684498781891872284256455989341576850643730785160575641935468317859204927784833184460563134107059960174492448450562587325437563547347293169197246913208234717150572359022942312821904916315049564249381722386598772738994010882960532804759919139800904908667785066353531132654122595419045121630754965607215070436655500932850880645534707573411815073262667503714797479298966519664171545567635306615606499758343153011267313653582553386573772061728289521127916505963812377183815836117231443900400247849829968283615750879142680025313425444079964737823555488732151417095555757066964831598664773063185187695316816558997940447734993177639957905006838154872402479852901594896665154078442783660704608531603781688863439184583369331305923099148832453756141847986450217933785599785643208794424023419441719230898053564296870778557932299807173037537444468606144877805261926131645700948130732196045503826146951047095393596550063088302836902182853193143055848953413930146119017544672174855264608456242207942705382900567485238598948042509331760038902716023073753205908703365463034583596949876102097099189184410142501438563703078093302332676597961066351236508338803630283138561837583895218831336258536081776945387178

/-- Checkpoint: `init_genrand(19650218)` after 312 iterations. -/
def mtI2 : ℕ :=
  43451447770933355967655871035138949693569261124825171477259371368242040963630315041640600927062429357342263245072047913504023898976222663001529237181465201772843534221011158941461788237762698589261273801769281502502593118350248735333713311198202497828243017791061617341960439265842889406544782867384102031255415178900271700980034168162099017956864365589687933957192069187376259297852575715811388574171215432492658087185762998133264937618221271755098965785706070432997411298302669325798217537933293030347163471750845422681163572671323163202114877642119962417042471289236322169711500740026105874938956762201603260389777781630279713951086029849345573805932629935728933211559110808097128740387659360937505283811305307347869883257125318992063172672017615398536223451585974537588286022205134009526045686872405388374260265035160946462461317145380067221477742827625033291004988186600847047377754436956112252765415547548408556447351514012263030872155378162443767249075800305742610089963329250678542759130875153917902877000807677462921581614667852151540757676825924685240218932446899250696312449506135479343622804623859202371994529890468382846930685411934794688331648287209458802119989744293689297836832290230577568486221523698209302874511121874762150532638410906132104470889309461291278796138128439899576644934370820510807927041579775331321262853219456273416624914629492046704521098886302371997733497169681590999013636545589526730424048338678309150088059101227216260252295312930593924952910598006343530852486415054899957422866806481309347647590361328438947697292746295807809428922793414666431031814032861628969263850718323415981880030858167528846350251046504303358726259363323070269072187751201049724611599535900338130652159317711611833200261613695454102202814578620205541009402153224278689166045349627866295907532129503895413832810001764573153936452102111555030652334240483122102594841884380674317392563630683854541905006240664521198153740937166191474997625752436218240484367957684741526689649510263592542862349097987484326349923217637403156985861455776990955562277159694815042715216724617281559276212445232985599228436390356449552586460255915535860776483174844518320695425225063695481080178103231631950275973599455300666837807626044694234147242514012101510230019527491077792176108322681805294472844587867838741311282738328647507874489747241806324255865685263010191263492795301111565976750841965370576184466410593308712339528181219905472475204122126760987352893962695606471420148579799216517439021817837338880498212480863841635080417758859006076745928135992556866011781792223422737565911596816399712199640792654318509917637608884290031624551158142734411201386157483991292013621678138939288482992546376894032653839238558962841745275990259484118213751656221934669102001560497906162914383442900645772006269349662366806111990602419656871248887642639965754962717384557626116538075248782173671677328111889848696227829607958952219328265125408926725048538271658360205449107884774215457740765053921576049468809462583970011502335658

/-- Checkpoint: `init_genrand(19650218)` after 468 iterations. -/
def mtI3 : ℕ :=
  208035992059834220210739403860728342738800931043459486417504744921804576107301366385882394524307886925326709696410060582571046786712134496918680416680943980311066992226858813038158927200790845598215711110835894507175269770154890531204982837147618802169414808789689761340145628204325618684484621084722441958161688016912421324099288963862239707572182297748227280386198437174447562714349206330194231572762662762674053155475771665202461967933320018913447100034822422979762921114852233133745576130783196381780778154639938751526666234888584530838691192559067459885896673777031593894819048214030450001105630867808582019623280500818645748904258121605299616105273501469975390354896905351370065909776688882633566671587816910500850860633757388199674372573806022960141881055611948866582181676984992901211490256893552544053009758012815604042798812545932751839558253589243749120015197466527216261562425157060089434385830128221712921455503857981414724425113344425234417175596485899270224729087117754854529668640368446340138470234658099993888506482262882918737993134441175774420907183556006556526463607863094934465644577286327377037704901665089009686910392150759300282925219129503035871976228333770430160588331838335667898481327016830105004452391732752044350994760100926516599261747797281390254840875472538528767606952072030869182689372165871386955618806855235067576949371522032198239108243482701233143359722471448202830282418889507694547069068049773197101950269643427660226477930460568533378109402451791210314724223548313851322707445405534124002909836618286620068740688720762227438159581287608606979007047077319245053726311049863900624117476065832089243771857636626832662494462208127245772121616809155442789567803345765946573885776623664069176100079692189634384236874498656719501747099713977009082214178194971705202420499535057551529394526454211574038125338004498187581943207229472091046419387864450729573875311718378934041315910934674693377240215679983586441793675962165813957731444833946627423718897696178983896216097543480408996341236873686029800250376612942682082158541930206598690252769895348947245827935850549430483346058307848014055692746471339373928433310095514834074296951595754717943542698667398718909644596069252143036430309600858872971617811192664078310864514962828331614094999169920786326614212035776789143458809930508663990371339694271149807886149359711693811784257060711344307409870510493207320521197570493643070670858958055885207907195058910103345731933634800397703514352099817952273312921226080321446945314419529193267302596223066209665065443756642755255078392428758584543857761744476524374920968789096166138902962523083570649994679160976276586424438966943496969322277009454395600483862901564019202531392208093592700957074894522718485026768972550288661890842330424655167038151136012365036361483884514973446614021225448108623147155536215936181888046720453080012952087502092581354243002756331248243040618643785481021927273593332067938825043845604510396868901271281261990701233673381817195650457226690768655258116235663135494321079565151842548931440635388741939242526841972619747224493176243784629238255643119828729300652833451551107903937626346504260079736025996650121886304670342126140670814226971462008306821365184095047305248139834716961531905103022374809384807709539099990535679449363786203451346610419001592763364774384532905686160063821305162526801503935329890150221827120645857326418273027547465798232820534796485028692780345062515746159349045967689025544483589338489820734001859227622232745625708868862026593365493687220286709000573878933116152364531507635011829597319025322595421926559683282460316381945822613402947706812081580193965451605528010892672034869851760051379743483979344756547080682038408844290985335050352181949538449104613619606909510514664006024761547293430236429292852441708059399753500064257268629100166032086594139288096645995169302619349574327908753470249278155073089415324864136382563924908537983625256578397064874182882653799912165995469775796373822152617660669376848382903215502783482985764983475510232371871688353833066436151976891627380613272569881653227217696717075420346785687782629660043321847657674392464730753031162675313033245868503571273896513624174400867503818783040443045808586748316034617559153521274495271341416825989360978789221707637391395475082863475846321885345250031796204469497583492780024578728138648559916876191786179386168238276917298840244955770349716983631505438758557336510397735133651956910061719206852673297701165467794484156922122992283426321124181519735969450

/-- The packed block of `init_genrand(19650218)`. -/
def mtInit19650218 : ℕ :=
  62685089405509111925910797243914719854890513935494713084094713797279779630627496305943786046941309007281293105221577504421353501605599255248785149356818580886163074212016138319710181437623915839386196989339984175865611290932895638485827512283879634622589907034847096838980553398268338905605705315464924834076955485269257682765843392777664062904318116756644819538761883164862381873685805923051342196114892111881287659915424456096361326051748180740843339721465950121631833352165428366344241754810081140762710579390137795215443629123183303201044796731629341661542390258966032612552126580439913324626563213547393121217728067632048719897064596438939163041106934301355643192260261867872030533878188557727018817797219012064641958276099544136480610826250078810896212505254064619595899307426216931651016613164877613570296351724055264357110051005104450572173606849938075379012356137114572525910752676385589168436483206759652170097284388598518122222819376116616668668677988651997615236221431416155794821321118852088948452164682783715959922435191327367306488124638818446090532334864386359317233873012285172875896330714873881780586230596002778688422250420590175698633544778262136505069053046737202152515000629854634631225453245996997340762744567896897683212149150732909707719966588817675821630380251456266588599804209831660991462715440400663143017564651072677052296295930367391822676512661642282350234567553218318066651318510488484545671729568971887621684270732981974442582657502555066960418690332945218280990034155505553171409775830458482159957769211244505225186771766058316021949327301666418107251589707938065072144733816368743637495699897181007119363672460040974223449086641663004605507793014252452324150238463715514559124307431648478948480649031081489229583165223570218974125422263886587593014744330199975749832650568652404661542746543584685860761547297457070273167102314576665676644281998277713093924236551494770138725647883566971887853912300960949802636372591951717316415323846182747445131420005722224687602711525724505110953736568981699982016588947035894059736087136235396798804019434387781559696138411966704777989194870090051835909943079457649936020314680876367897457337488804889342331824364904005266943816631681518612047693872607083945336048154993001716858914072302230374294986610531277637599664647525761147514008899238689946802093944865612982597431648203028809043429562401771290925843222821220221381984318518256971016750121270624021542153515130386081256853244444367484914891752438843250797295149886721543902585582757118492217204960123203770309672216674331373413106027454841661967870247822106376003696537006476355273043676224973894002060133928765135363584693312631060562155459381152426642778209514491263275588735458188352331628933634618912177576995916817414488324819680108333628484452298807271017999262374749573133359090629722111402666396222385680310709557844049479865847370371052888681758484468279513921172987571336140289500145715018352119752770038578015899178947425013401300127437407370742417936980607757405410607208376626705322894782663757703548808362869195819947150150865798288136994832911439410269353230208345410503242199606186650417333579047848825834242257112060317620885151293421378661990197161958015730358249113963865616811805417654957899792836277351433146683316643158745577273742588847277405020330699298979666450169324546781433015633218213248018986767013905101885085728066131985273947793365444250280947765884488609302913437528001802423347517836456663978922564542901160075954132077499502061844004777463229898312792357201472450520034421742281215395838957029567457078867297742321364249618062920323524100796395855490398720473188748064226082130624085325443879193454095100721902723688608983702297802922465778395428510531587340343771240068168890882622394112252370643121994567113348850616779414952571984309063927162547038575769391208822294299053225776973195785292510157058775147687493667385905281728614066936870793483631104130486096422866739022254251631022238998824784309871214211336594149372534724828516536519652291847191320934127662041939033266344757810255450761243406685982638804631309022215852991706323223872506356963395668107287976200691035733250165615782065576159415303394415966535152327550107294310945533761757937224536792146711105700674959937207778503501562879445241463662142281185819506210181780721218897488871995890898495582077564387715740371190275817001449471008660140255770382875594805433223352833476546594040372715841292252983175468170554585838014797017976570586587751089146553833551413146641975370517778330202052282190648141351908509904289169596729111939424597802445523234111653813513351586367960175769546506050051493655326103823629699245586418016468660736051425039803522537493270385743437525903109563398688573456345292160567787373069854610200635728800730405759403691875432721043746233636765094325962472698626875833148826372580999341547042531665331710768365982359935219565301595187067772247975847412037958098451506998773182171027695752045356894447709388159633645629545493246019135820915900506906032640701290570506299065346661219735445730896769091171352761432210047450382980030625592142825700677633624952217795344145832513082782540989616413040988227257601039794195623143595351637462190706636535912449334420058581521218743569834717812580171279915160794789675762903718339466089866492140118823551337811927493524761760551434001520245324751568861558716803095718510972066599595072196209156923318071322517301806566620458899402166430591631348363311478802800521980525250372511467674969151489645720009661369785217086930227581405674315978920044798755483144811069077253851302610194739624245401270682864202663540116818822475326676741780611737275972111438408802370422377608919256570335384654037352344114105999356653180812503717835632673409647782213628400383443178293619326757139369589058612122088577237252104060778375287897543799460272211546791798613974575310224299012205778134871255296492395729078221387894808011355820153110205338707003138385845672884757408327786763143168159295742358655797897448897721796416755370


/-- Checkpoint: the first `init_by_array` loop of seed 42 after 156 of its 624 iterations. -/
def mtS1a : ℕ :=
  62685089405509111925910797243914719854890513935494713084094713797279779630627496305943786046941309007281293105221577504421353501605599255248785149356818580886163074212016138319710181437623915839386196989339984175865611290932895638485827512283879634622589907034847096838980553398268338905605705315464924834076955485269257682765843392777664062904318116756644819538761883164862381873685805923051342196114892111881287659915424456096361326051748180740843339721465950121631833352165428366344241754810081140762710579390137795215443629123183303201044796731629341661542390258966032612552126580439913324626563213547393121217728067632048719897064596438939163041106934301355643192260261867872030533878188557727018817797219012064641958276099544136480610826250078810896212505254064619595899307426216931651016613164877613570296351724055264357110051005104450572173606849938075379012356137114572525910752676385589168436483206759652170097284388598518122222819376116616668668677988651997615236221431416155794821321118852088948452164682783715959922435191327367306488124638818446090532334864386359317233873012285172875896330714873881780586230596002778688422250420590175698633544778262136505069053046737202152515000629854634631225453245996997340762744567896897683212149150732909707719966588817675821630380251456266588599804209831660991462715440400663143017564651072677052296295930367391822676512661642282350234567553218318066651318510488484545671729568971887621684270732981974442582657502555066960418690332945218280990034155505553171409775830458482159957769211244505225186771766058316021949327301666418107251589707938065072144733816368743637495699897181007119363672460040974223449086641663004605507793014252452324150238463715514559124307431648478948480649031081489229583165223570218974125422263886587593014744330199975749832650568652404661542746543584685860761547297457070273167102314576665676644281998277713093924236551494770138725647883566971887853912300960949802636372591951717316415323846182747445131420005722224687602711525724505110953736568981699982016588947035894059736087136235396798804019434387781559696138411966704777989194870090051835909943079457649936020314680876367897457337488804889342331824364904005266943816631681518612047693872607083945336048154993001716858914072302230374294986610531277637599664647525761147514008899238689946802093944865612982597431648203028809043429562401771290925843222821220221381984318518256971016750121270624021542153515130386081256853244444367484914891752438843250797295149886721543902585582757118492217204960123203770309672216674331373413106027454841661967870247822106376003696537006476355273043676224973894002060133928765135363584693312631060562155459381152426642778209514491263275588735458188352331628933634618912177576995916817414488324819680108333628484452298807271017999262374749573133359090629722111402666396222385680310709557844049479865847370371052888681758484468279513921172987571336140289500145715018352119752770038578015899178947425013401300127437407370742417936980607757405410607208376626705322894782663757703548808362869195819947150150865798288136994832911439410269353230208345410503242199606186650417333579047848825834242257112060317620885151293421378661990197161958015730358249113963865616811805417654957899792836277351433146683316643158745577273742588847277405020330699298979666450169324546781433015633218213248018986767013905101885085728066131985273947793365444250280947765884488609302913437528001802423347517836456663978922564542901160075954132077499502061844004777463229898312792357201472450520034421742281215395838957029567457078867297742321364249618062920323524100796395855490398720473188748064226082130624085325443879193454095100721902723688608983702297802922465778395428510531587340343771240068168890882622394112252370643121994567113348850616779414952571984309063927162547038575769391208822294299053225776973195785292510157058775147687493667385905281728614066936870793483631104130486096422866739022254251631022238998824784309871214211336594149372534724828516536519652291847191320934127662041939033266344757810255450761243406685982638804631309022215852991706323223872506356963395668107287976200691035733250165615782065576159415303394415966535152327550107294310945533761757937224536792146711105700674959937207778503501562879445241463662142281185819506210181780721218897488871995890898495582077564387715740371190275817001449471008660140255770382875594805433223352833476546594040372715841292252983175468170554585838014797017976570586587751089146553833551413146571934765588720376274919135980982519937442491049713156354925399514611785735686868471301312529736510055162649501289640647854431988320075417754803104332985568133482079038914205342875398945072900354150423474653987986188081994188280990177831988720753848657528549281916111388727694897963278502448530927625693762050202306267020465679993281140487004966212909314082716368255084086356093446024192354740352668158559857552996229205559021395124846443472089674522069014424341177803161496621975120484525523231252163579655203101628262576936618714822336732305018319987361118016042760351899355619958647874453190949290120379655844384623393207128610495651038106983203751331723113788782646221133994618125565200629476511213808319171479817452761222454572824583857102243664055198507126794501939789616212334702447729394592336278181623268086250876407676993530554673693286598140315841256297720124342366614641118246468028226137606340990785668822761590672784132366169712790670238880694755432980100560923368053520053755019831847755742349917980401543238966706968022953009028477558288942107175986102268792840966174102869587271411072532961404020527341386690879462920675762622260145700933138038052103239258692017955463555311056064636979615033910732856891757222416264913092299316774951457401399578897625680427588716293858526907332757101142011288690456781991272993177233268741676953485019597213095958050584353252668504497114295028375140662515310376475589725767352995784593598158083633324382056826214314691733703570985765435131249616631470458918570

/-- Checkpoint: the first `init_by_array` loop of seed 42 after 312 iterations. -/
def mtS1b : ℕ :=
  62685089405509111925910797243914719854890513935494713084094713797279779630627496305943786046941309007281293105221577504421353501605599255248785149356818580886163074212016138319710181437623915839386196989339984175865611290932895638485827512283879634622589907034847096838980553398268338905605705315464924834076955485269257682765843392777664062904318116756644819538761883164862381873685805923051342196114892111881287659915424456096361326051748180740843339721465950121631833352165428366344241754810081140762710579390137795215443629123183303201044796731629341661542390258966032612552126580439913324626563213547393121217728067632048719897064596438939163041106934301355643192260261867872030533878188557727018817797219012064641958276099544136480610826250078810896212505254064619595899307426216931651016613164877613570296351724055264357110051005104450572173606849938075379012356137114572525910752676385589168436483206759652170097284388598518122222819376116616668668677988651997615236221431416155794821321118852088948452164682783715959922435191327367306488124638818446090532334864386359317233873012285172875896330714873881780586230596002778688422250420590175698633544778262136505069053046737202152515000629854634631225453245996997340762744567896897683212149150732909707719966588817675821630380251456266588599804209831660991462715440400663143017564651072677052296295930367391822676512661642282350234567553218318066651318510488484545671729568971887621684270732981974442582657502555066960418690332945218280990034155505553171409775830458482159957769211244505225186771766058316021949327301666418107251589707938065072144733816368743637495699897181007119363672460040974223449086641663004605507793014252452324150238463715514559124307431648478948480649031081489229583165223570218974125422263886587593014744330199975749832650568652404661542746543584685860761547297457070273167102314576665676644281998277713093924236551494770138725647883566971887853912300960949802636372591951717316415323846182747445131420005722224687602711525724505110953736568981699982016588947035894059736087136235396798804019434387781559696138411966704777989194870090051835909943079457649936020314680876367897457337488804889342331824364904005266943816631681518612047693872607083945336048154993001716858914072302230374294986610531277637599664647525761147514008899238689946802093944865612982597431648203028809043429562401771290925843222821220221381984318518256971016750121270624021542153515130386081256853244444367484914891752438843250797295149886721543902585582757118492217204960123203770309672216674331373413106027454841661967870247822106376003696537006476355273043676224973894002060133928765135363584693312631060562155459381152426642778209514491263275588735458188352331628933634618912177576995916817414488324819680108333628484452298807271017999262374749573133359090629722111402666396222385680310709557844049479865847370371052888681758484468279513921172987571336140289500145715018352119752770038578015899178947425013401300127437407370742417936980738455304137284431084381239360403362915983463134679949187798061689403573080465775647209174644291801373034748341292567450595097089421990343522847866615232611452214867722179708124029325674911875178612843024186601906115005580552642422321453433941752595264772438440170141836387576158886351375031751180704088488980053780139936226258931132673040354207694199354803949662490665944050623979966650943670448681124798896747908636254231444583744826068353475285825766686859132645838267491278590459348817949669190509824691554267805141195311944072653780422124422040408801662949082835768993279165488421242539384427492232531526318772001878399897790963700436549916352385062508397331144326508500922791606939942331669250556710734577184430815453456704894574998717392070785342130187805669063162204466224433579103956180414295878767016993479542419059527208513383894744900612060383028941315950134131390533011791504278003144894195744619620789154756513851215420791879131788663591866987303131605930899488427109468630330829637245158076847591699647709330919366853515007784845526727744289308819912594175738615826352087329035534302281874176058642871304896305177719829731473702784665409090027215648308928470333697989738249741328872950197770335079937891374064208510319745887264535239773011436708666693462158165177746655989086599143718631674574276617354584432964193940522143047997547289264727108968137690610866449520090694632542126571582354279900387497865104945892916675468957416355113135893790033532687599230261448170596177391935260550989747920200521907052271749693871363240112291603941125450349715637244371138492820051059560102395890419404783465190826589608091671440235276689198916012462360967971105358817851810077942474567822079973664630079720777157004147776250886707997484323391591458946803151917449177971108779561343940518518175949603439237017335668373333594151129258397128948571452040134800129355350061046671359982305849455139190795862963647518921459883516017207943696786922457252946123867973822638196186868109036723000834080543948442768558433263315628902922412891595023609039642864992566409680276151338248952692284542564838397868863135613238005416016124211745789069486741468983879611366145392846302165693634089505534105145834084717608921011885663332741764593938086665731565430345803655616452809737771652075004221109280335978282410236563600152035366231388447816269291953594668095734122420169601196836404921149019431461800418013376739685601417539517786075521302253940427304879432320777044291147432969322633011461758433653255170485043788677789645898187741802387268534923968447070050487430074772245297435609653871066922894734188318203564359052896373250436023399169638564542365567480483150849811305245860080518077938638449550570277097833924666118424827254282431616041044677740452236832289917492482442387084006471368709186381381328765090632973634932537653693926696904995081792695668303485960532489585630328825240271175284898795174731117586390212833410501964420935715428660053761260038445054258017866899898986717688175979683039316985345083381780305578

/-- Checkpoint: the first `init_by_array` loop of seed 42 after 468 iterations. -/
def mtS1c : ℕ :=
  62685089405509111925910797243914719854890513935494713084094713797279779630627496305943786046941309007281293105221577504421353501605599255248785149356818580886163074212016138319710181437623915839386196989339984175865611290932895638485827512283879634622589907034847096838980553398268338905605705315464924834076955485269257682765843392777664062904318116756644819538761883164862381873685805923051342196114892111881287659915424456096361326051748180740843339721465950121631833352165428366344241754810081140762710579390137795215443629123183303201044796731629341661542390258966032612552126580439913324626563213547393121217728067632048719897064596438939163041106934301355643192260261867872030533878188557727018817797219012064641958276099544136480610826250078810896212505254064619595899307426216931651016613164877613570296351724055264357110051005104450572173606849938075379012356137114572525910752676385589168436483206759652170097284388598518122222819376116616668668677988651997615236221431416155794821321118852088948452164682783715959922435191327367306488124638818446090532334864386359317233873012285172875896330714873881780586230596002778688422250420590175698633544778262136505069053046737202152515000629854634631225453245996997340762744567896897683212149150732909707719966588817675821630380251456266588599804209831660991462715440400663143017564651072677052296295930367391822676512661642282350234567553218318066651318510488484545671729568971887621684270732981974442582657502555066960418690332945218281302502024736343757982570845498055681282598406853509579013756035087153821871021487861422874787284352918373811789269742770876098070297429484108024008432441795706538620803947767236923725929302050032715476866790212440545393902765079646465135247248450561436420408885624096097806345762618624448760501009778615908788231922957109571713117305563461803717280781259539826125184378459987600031392325396028116090772233134143847128874446480495017396835891999144891291220132752391608944200847628611782265746901128096209277219534934351017768598737494957478175149880497605617568111409183240594009912578957401850981170880675348965663455629809325888495712773416491138412268269722517087318332979145864326323859289778649594947912358813715126922562836339350092060352022376909353013106057012425628109082679644157236586739050611563647767889394918339898898909267973252935723848642651398824289373028383083652261116681363467950229351281350064121788163695339670540904639490380523566010418297438553273748230038686512053787854879384302040932604615117364732892632464023601930102804110396489369785929665007166375683696111988706537440748781244574439456522998084384212309017545854087346498314508008947272541605898184319920645404457477491369853245410592862031290730595739872781169433505406360238859775700210006800270942332758791244805726603461595453781012479894687250567050258392968883443286035464219832369958325544141784953748970991554975792295308189165962420193821021436077362965906111805020266163797081671330115943657789759806779574510326840774723260355162470476208129617997247027794929686934960339073213161050611451310747085690520579193654854916557272415716562748738189301445236564673932701825001341225582945069403203500123194054770503103161147818082540639126403461535542169700004460260784269589288139573327016729053446857437683448029462564317161970141883057999822859762904588142617644020734232635326964337419730805182538752501428946106349105968299729437517551379090449082035312361880559012821329691200949386743444756223146361933435035197386097514319575625742587582324922864084792398454815107680206033851421430996169106683139857737770720702776021232592803913169770283014352352793455247146181546422142854888680984944385490901524584264349641634665341862669255316632510644148345149360435804080661894801822118912110971879574036666875960789994990479078158667126702216124414518897479792099662201252876934085455303953810689774112208318754311612900358227680894803056446436740393177922692466878690118003698954718594041305333035640109297719803068967663481290605141418803331498935474313973946677773307448065877539361588047218031324897316572252561729463169569012171848384217422332360356888417765382142351217480329816177572195783917460636088238905516181035826949489476793768815664910453714054101110188659421171653307055381455953777261902011188549592148563567370645453166302391831007845681022911693855712010962633389068167461011068397520251952868189893630970920314874158066230850525377768929421938312446920553275980119747423089961539814118055954111558560161223828077865262230173022616603619997958962727762789324806224571229780118116017440913786283182348786056218918800991334924173300668463322132875366864518313091932364230510353947953386114335303595554517330364695423607428115519235391176438514572767984686364008188338663624573114182433941236911966285473765823489006831408155813983883977378833309312156428254794519647033822977430615363105764455840366364893768372991514981067563724955756681477805534015805572762270354733000036818726327375063648662327303872341561364417086738928755000614179841284853827727181837590932728274519663263011935963729129819838060549688009329968412044345515598288885471445629364060389357199438188833592663174245374734815479872015785030123327056127369687287589332847172170756820393175184328722805016455633578765544352039264662933362022163526782534089081212292931963045878120332907111339236398715304307208254782189084927095730929978992594378975546994340489499628627210984604892146297963864573092653400427503111749547080534011165523882334692263232680864799437682446579981910519234779058530643128761059162048211236501569681317361194360055186949591310480545612851490753473833106516270806477934059057618062835157612181830908162963849643835441429183875095119681282011197501947162844524827771516664376712353539993138699661069305168503342162047221932926215046840713399919887259853938702156103911858349909024725191118683752870020338425434064126934550166493251254611035469471992839957486406204403174434869833046242140022458901456636829443029298042538

/-- The packed block after the first `init_by_array` mixing loop of seed 42. -/
def mtSeed42L1 : ℕ :=
  33773506489637007645896830947751417851180265331228644372364518344875780168543153467881951181163862181286862698808829125290124627175686731869800874741307487965548930355266317783394240298830462487933448378572569367908179565462266594376627242036896706165965298232266834825444902647263860469080165516091875825188648710781958794987588984859700453180382178219353431089271034305083998723287183733348150441438228622618559382013764620383597058885593312774258240950679662604944697652560009591489741090435626475934666280605555195736731843666926019682589081598391160934762701154692050794442636217272039551770777689096408046771493987934781153455743049842145478093221854574186393743810311013663501714229088997284543044218674738424416385968770558136278866955777095124704735164117873905166250685503757332122564607628479344032566655939644704581548008277138690091575910290196390970376768858214919724058449339084587776718812550676528522169023778245368536626048133657549629430184060440799225701169391785264317567834528226883071807892435034067842673728492881635661593023582745385676224291324157697048429575827289853979478063252892687743854529886256153124060327221473687350266519969238003964853121962627802989864941081280485100942407377781788260385980519553818819930199438938374275704597110041637528827679932504137245089410381619775415752050116198407727659860461313118485789625295737585551627620320004898122739218546602762137095402704902124439898328009382454226227607122338919403997342627457836655912577785881737460049474636970495558073683479824398381762473355001415914823298209079466902912005781393189906894767711926072224052269127170984669585989203518786946549302630473038248835237230615396042649483021731352142638203851727985513898990983406914967220762427359730243419744990538091226168033070786769366992436808826473913210609912938229579972164363969071005685130716646011420702081420416384481288726757550236314603192767479786611776764522444376139418035330017688722194657593472817933698936411960869867356419443574657039519834751055280561855100146829203672363825831860134996443718368634795979628521856894205399876277128685891923766447379782363157353599465332586258297697961188260902953793009820214201795911764423185834510092205950855262676797488161498298653524334435216164022932227646500304276717509065131141365920796616816951569139907017662998109752663750660920737484998152455813006176361158981231790068032102898826487004770385290021323650045480836285750017093467862681663542388322378772608559897414261994736815884429750604574733498251614725672172513855578910584419130548420039229671240468021073057760357840285208319549422829443246837482820431600169157700780949354422403093037578420565471351562117466120658177697721324383724202721286454937303796836031571483014896696220232675310472367294638103805272780292281684023915331497831335716626159811129905946219257271221544692537825685211562799484075177381644990161283240409398788486135486172758805495128709566901136219865897453408380182692704805722202091617702156784707514173572772834376659601457245606310535840316216263781494922069575336130988019101044632912998335894966769237394293464411320824791805136310560436777231548601431081217224078586495854800142217139711463809728287879841465514197704647171032806105713626413370050164619062022980306906522015128612900352363424708038324992099411629643518664975552266525038327131694839879586243387751445433189473605470156862524456362518625941859233064097537391433529233717294506442018270772116543006037780174729184748853598711190216467464513403977439401168572627799625651942412164370285832383869953734322973298947097109340771240901488336975341535514335112220190013350276146318758772368322567440517531158417126927278290244362955572874462871683518938849155653148086678084653170880079148064626762945254058974602694218572177541859909245966554526961950248816009479740623005142883646682171481558803939344253423735072691027740446370402104599350470391310391971149567269350867587365874152030282052401068347176449994588253289668410666245315478900579005061610899499460753858092226090157159977023888966471310939343534302106495227958325439240274113164166804929644414645913888124856392735471881339513750468217566144794226200541507767028030553725479794100477817763753690254306923764138656292191545653842520014629674638233588037938303806827284632838384282297018824776114720045821529975457075847556025734817163304131839487802766401669664297541407219629274362821351326148586743716819088104495709460022203627184309023262398855491767699981800055250618884468080460864761907202505662059411060536721197642107108889482764981027444071665362197958771204607738235635023459578898629181282292527874880604702979012019049302611523234105212131050361508669400273969219769911272662367709021174025307116335353968598799866504519218206082554325704339008919879080475156237337957326606198376713061028285669661785989494994441561049445456802811521044021914213208480112541420367251023514608355998180289510100622809895811036822049240812369009658628415843816844626903403464028490666785875226139120165232214878960447862155287149491656772933447255092269989812503187996079285490646061728711835214649709503671389764046672815754720803609108082983725799268208736751513316847774644809493000046015162079187934953846500013574321506395544350131439330545510374057856648232545677040852151022594062956797643747235954145680667591306317596065705421137305984649975778527611050733952255796730908250050311764550327208727861600810808724255730329422514088285402594722537044648308136453695668387477493044686127545177361155088772117897654102470551749482730231839413104917298116909332179369925906916001163048282058943312039521281934398155680168735527045172224934539817316344506854306245840779987668488240919263435540105754224717989455349659657272590436010546962156119699214093591019429475933622294573359672417385737118270844339214178809065080896835343898543125407555332083892593758145879518570685095346550227312832111634374826082157819753075628595279534836940847034400018114577390146369902483091535267852010285416983


/-- Checkpoint: the second `init_by_array` loop of seed 42 after 156 of its 623 iterations. -/
def mtS2a : ℕ :=
  33773506489637007645896830947751417851180265331228644372364518344875780168543153467881951181163862181286862698808829125290124627175686731869800874741307487965548930355266317783394240298830462487933448378572569367908179565462266594376627242036896706165965298232266834825444902647263860469080165516091875825188648710781958794987588984859700453180382178219353431089271034305083998723287183733348150441438228622618559382013764620383597058885593312774258240950679662604944697652560009591489741090435626475934666280605555195736731843666926019682589081598391160934762701154692050794442636217272039551770777689096408046771493987934781153455743049842145478093221854574186393743810311013663501714229088997284543044218674738424416385968770558136278866955777095124704735164117873905166250685503757332122564607628479344032566655939644704581548008277138690091575910290196390970376768858214919724058449339084587776718812550676528522169023778245368536626048133657549629430184060440799225701169391785264317567834528226883071807892435034067842673728492881635661593023582745385676224291324157697048429575827289853979478063252892687743854529886256153124060327221473687350266519969238003964853121962627802989864941081280485100942407377781788260385980519553818819930199438938374275704597110041637528827679932504137245089410381619775415752050116198407727659860461313118485789625295737585551627620320004898122739218546602762137095402704902124439898328009382454226227607122338919403997342627457836655912577785881737460049474636970495558073683479824398381762473355001415914823298209079466902912005781393189906894767711926072224052269127170984669585989203518786946549302630473038248835237230615396042649483021731352142638203851727985513898990983406914967220762427359730243419744990538091226168033070786769366992436808826473913210609912938229579972164363969071005685130716646011420702081420416384481288726757550236314603192767479786611776764522444376139418035330017688722194657593472817933698936411960869867356419443574657039519834751055280561855100146829203672363825831860134996443718368634795979628521856894205399876277128685891923766447379782363157353599465332586258297697961188260902953793009820214201795911764423185834510092205950855262676797488161498298653524334435216164022932227646500304276717509065131141365920796616816951569139907017662998109752663750660920737484998152455813006176361158981231790068032102898826487004770385290021323650045480836285750017093467862681663542388322378772608559897414261994736815884429750604574733498251614725672172513855578910584419130548420039229671240468021073057760357840285208319549422829443246837482820431600169157700780949354422403093037578420565471351562117466120658177697721324383724202721286454937303796836031571483014896696220232675310472367294638103805272780292281684023915331497831335716626159811129905946219257271221544692537825685211562799484075177381644990161283240409398788486135486172758805495128709566901136219865897453408380182692704805722202091617702156784707514173572772834376659601457245606310535840316216263781494922069575336130988019101044632912998335894966769237394293464411320824791805136310560436777231548601431081217224078586495854800142217139711463809728287879841465514197704647171032806105713626413370050164619062022980306906522015128612900352363424708038324992099411629643518664975552266525038327131694839879586243387751445433189473605470156862524456362518625941859233064097537391433529233717294506442018270772116543006037780174729184748853598711190216467464513403977439401168572627799625651942412164370285832383869953734322973298947097109340771240901488336975341535514335112220190013350276146318758772368322567440517531158417126927278290244362955572874462871683518938849155653148086678084653170880079148064626762945254058974602694218572177541859909245966554526961950248816009479740623005142883646682171481558803939344253423735072691027740446370402104599350470391310391971149567269350867587365874152030282052401068347176449994588253289668410666245315478900579005061610899499460753858092226090157159977023888966471310939343534302106495227958325439240274113164166804929644414645913888124856392735471881339513750468217566144794226200541507767028030553725479794100477817763753690254306923764138656292191545653842520014629674638233588037938303806827284632838384282297018824776114720045821529975457075847556025734817163304131839487802766401669664297541407219629274362821351326148586743716819088104495709460022203627184309023262398855491767699981800055248859147032647813337314714002579403167474408555899350476130423066384766723051133065892099284924739218938004614047998468021785972374494245775592421988176904246940108674466859327050483231330059908113014624408678260139997609815953559997629227593370809040483664647869551520477958351940174518787510232684982123661691520135880059453654890070244204091409638799027124544945362551371939432752932940636313163034159681677879690201708386624739634912673768619339841884731561718533431093759151322649571966786662130444593576556667039237067043356283710380118592878143158362055337216609977380104850403080707832791841512883219581752102267223057397035379104185969530671705303393179597793401118706319560497459585301328205151899960563235851112761935515616018917980460299829251647633794842329818860342800601399621090509249527649384406068264411124353885692836026888066582312726533054660434797275311887090678054618133375164721108775031646176733673914786324704134395964436197106311532306827119948179600676889016515330419078898898953756519856607741312923099948427507521399453555989433978753588989413444090950416294935467661959474797618525427405181351729551910390282462172189197782830300899503195600653752870965821872506492747537509399584275236991473873627958175526406286719943130884835149230792019418021596203935423090972941094795169688772366071438699311836591980998716948447496063860021746585570650325839852120612648873096565194082186679717271357533868658851047829712464484244388891357619925938943536550888717787327770545114684962015956797420716567

/-- Checkpoint: the second `init_by_array` loop of seed 42 after 312 iterations. -/
def mtS2b : ℕ :=
  33773506489637007645896830947751417851180265331228644372364518344875780168543153467881951181163862181286862698808829125290124627175686731869800874741307487965548930355266317783394240298830462487933448378572569367908179565462266594376627242036896706165965298232266834825444902647263860469080165516091875825188648710781958794987588984859700453180382178219353431089271034305083998723287183733348150441438228622618559382013764620383597058885593312774258240950679662604944697652560009591489741090435626475934666280605555195736731843666926019682589081598391160934762701154692050794442636217272039551770777689096408046771493987934781153455743049842145478093221854574186393743810311013663501714229088997284543044218674738424416385968770558136278866955777095124704735164117873905166250685503757332122564607628479344032566655939644704581548008277138690091575910290196390970376768858214919724058449339084587776718812550676528522169023778245368536626048133657549629430184060440799225701169391785264317567834528226883071807892435034067842673728492881635661593023582745385676224291324157697048429575827289853979478063252892687743854529886256153124060327221473687350266519969238003964853121962627802989864941081280485100942407377781788260385980519553818819930199438938374275704597110041637528827679932504137245089410381619775415752050116198407727659860461313118485789625295737585551627620320004898122739218546602762137095402704902124439898328009382454226227607122338919403997342627457836655912577785881737460049474636970495558073683479824398381762473355001415914823298209079466902912005781393189906894767711926072224052269127170984669585989203518786946549302630473038248835237230615396042649483021731352142638203851727985513898990983406914967220762427359730243419744990538091226168033070786769366992436808826473913210609912938229579972164363969071005685130716646011420702081420416384481288726757550236314603192767479786611776764522444376139418035330017688722194657593472817933698936411960869867356419443574657039519834751055280561855100146829203672363825831860134996443718368634795979628521856894205399876277128685891923766447379782363157353599465332586258297697961188260902953793009820214201795911764423185834510092205950855262676797488161498298653524334435216164022932227646500304276717509065131141365920796616816951569139907017662998109752663750660920737484998152455813006176361158981231790068032102898826487004770385290021323650045480836285750017093467862681663542388322378772608559897414261994736815884429750604574733498251614725672172513855578910584419130548420039229671240468021073057760357840285208319549422829443246837482820431600169157700780949354422403093037578420565471351562117466120658177697721324383724202721286454937303796836031571483014896696220232675310472367294638103805272780292281684023915331497831335716626159811129905946219257271221544692537825685211562799484075177381644990161283240409398788486135486172758805495128709566901136219865897453408380182692704805722202091617702156783677094308345571117235399544465075710453048663252629348147855354417176778463912820389302707663475551882725263066757333302073651503443549909174631206113178343237539487060673053519241448808787812820321215868383601446732520363112344068677504048876457763472328789256421273319646583777789921957078543627297953521217266250546911167008414287508093401728217508030516962121849349809436902495989671229820694788735252012461465904942164973998236348365941173395861676943314005530339814468221225543713128745285389912804136483926620888869699118267892343651855985921640843839292200200539484969201390682315067732779356462444387038758640308692680186687420105220205760010699266077915285585926081005174273204397626248494722610645649731809516190794629110452160753828540427246167360940240859716814659127688036078059653162526978543367980268782589858189652322020130968664385810926052913818134192245415194334570106079462724512062090616443264667034248733483023870720452288284981871676987829453646708232803597094466343091453755962884908581521935209972123346471791735340398040608762603559538713676517476838657546184571685428947156542689933509222835736399120009838509535332006750910709042338068008914939507908496298056999948114738362610030831068784645931844095336524014200400475228504845826841771262033701596523826802270930843216772301827157423940848940838316055803304401022787482405550888120267521407031525465687449271856547333038887181027653081338528508699399310039196631172529229969100187204848741801529603124613151988333038692749383070148789162501568802667784256309400093068402609682235761179750815036136232175189311297216664832110236160105340242884584172595992605508716886048629394748285914636275824605140374108821852312603384882546266738066296379589524954610155977072253698699637765209886069729921066987985647623588772370213932584456274729406729966813279289007540814205145977870722304348783686026779983922679444259444189761958675945135457598275158295189894255979035214347840102532122539691176059028231241216112525429691649615701877639479257663425381528422677005016877654244146205473941430620773469165847828249499586544770617882005937396618850883591296062995928844679223765704168472887173859426783892047742306669564856443627642948740171035838036185454964144590355328357633522537236543032266040590446171008453927127558613749983157772687456195580068273041361929039143257578210690947689233157973578301284701203594489511267546877140599796101072695164090835900565502293341498103333560384776387246911696169771093099155840271522790239139240153473688120772585723065436101942464827384167676917782045197485302918837212690527891446742715151816943857575168831271621900373898571922054935449568622951126036225609416815656710215840456420104601893762218161462685213787476574872026652629589833149078137389006452164241050294502906629416675645245160807296246001786209036486372581185827538626304944968763135064681739639793578502349107844954204667122678217487937116708620363611194891127796309615187995090249863876923090320963118434915701684990293999498034475550104076823

/-- Checkpoint: the second `init_by_array` loop of seed 42 after 468 iterations. -/
def mtS2c : ℕ :=
  33773506489637007645896830947751417851180265331228644372364518344875780168543153467881951181163862181286862698808829125290124627175686731869800874741307487965548930355266317783394240298830462487933448378572569367908179565462266594376627242036896706165965298232266834825444902647263860469080165516091875825188648710781958794987588984859700453180382178219353431089271034305083998723287183733348150441438228622618559382013764620383597058885593312774258240950679662604944697652560009591489741090435626475934666280605555195736731843666926019682589081598391160934762701154692050794442636217272039551770777689096408046771493987934781153455743049842145478093221854574186393743810311013663501714229088997284543044218674738424416385968770558136278866955777095124704735164117873905166250685503757332122564607628479344032566655939644704581548008277138690091575910290196390970376768858214919724058449339084587776718812550676528522169023778245368536626048133657549629430184060440799225701169391785264317567834528226883071807892435034067842673728492881635661593023582745385676224291324157697048429575827289853979478063252892687743854529886256153124060327221473687350266519969238003964853121962627802989864941081280485100942407377781788260385980519553818819930199438938374275704597110041637528827679932504137245089410381619775415752050116198407727659860461313118485789625295737585551627620320004898122739218546602762137095402704902124439898328009382454226227607122338919403997342627457836655912577785381198240082924523470123050623246658613059531955327845820177614647028789737055143256682946411489658465762487564022768266261223428033161749280254851410158300925883989744670781753188311415937775550315477010185096429276391277557895463032452837440372747202190055424702576450489080118255436260028519918407968915446650618018547496759592442900366205623165711580261869700286122679520864896631389315086181361958556337374553713141636483074128728188409461406377763821156540657750466293542376389096212779680669343175390156452015636565573436739013265649310496619340554808673818456046871488081664222099722183637927085995868604692916597466917457262670036728156637622789646545049871499076641590263826025545811284348604630735178908694442743226393127792969860958155981188615398770421149935210575389518408103213815747347851524454078926017454803443372616508895080038646151835120653560474965183791525598826960399231720729798538195648672861977959839744655326099305552718883533201379179088419132274608747092015239181149811594769543471649067803079145042565743078148240132561627000588238301756476935108858464154551927303427823509262930602759894161621882501636245328245149746090686864359489893186843612656999980923951300425863430601111744448717707803687345382453514122135184412880689280109384155418314718048964233896905869109413349204145869198358267709174471595268805465231910284122192302893155268600041423679482708995591705131168431325737718161554965126527033604845122063152107993948872017797069842981413744061271676287811129502544440263423907124372425941749378484288099942778703638594646868183521992412892677691500287508014963672307745680656976664954665698380289661773053116201802986960772438559652196692631816412336559736098797413080520149785060448659337803479868198585481297970185775197420129346764822168672627072156402713513036637122527374589268321690366718619349957916163583718417683968774700830349884587744213406930398598514886784493573785759716792724351176781645395576714329015395693317316072876893577487013918794725883785785762887187377116361575216725460735115342976255501940617916831081323432644198844634273587967252721909668200424047647703516231006811571013517994694332922440703598873482538600767669337224251363329636798235572146020409491700051180511494629308776063068743158854492439641025488746796764700358926647894731095689339139578895778517572063595189598080108410859197403384718465835713588573760357380734808639601962862895837402251780166823246797932149719123038019543681517050745065354595449088987682100296311617813513849968133338797287899495828877475625407933175210052961473660885779034279571337928398685116373565342323953732133857905880292553395622167139098567222671938781640694618595790327352082057116830579472534767279311044810010549245885766429905817793430273246792246694926051848902598504557917492439396876140722991231701162399040266121041176064973273859944967387976938670846446684679593910159699851746794146012903658994666147813344068915451081111807684144649712678649389944649518464609207662089438008473719487262841446266587847052521635830171532634678036420130829929459114232592360418601201502430989289965869389045220665459432710602964475846568276889449710454066144165310662853345500784635706630652402191234729729876816119920381850912604348735825077704790264135143168407580007371737497560622992273632454702420445108107506277819688823890869836325493076557982218000647401858748814742425160124923044540705539313548342515153697467618455942797403336182301613317676931599530982338564464495839379103081653769612770852668632564616466952272251437884826787272374431643009974061492292663367943538480717902733108165508641954765899729531006262957499597643888810946849479516077248455057961432342870855336807074371839393102259251308784267997730499950975531031319990239934337730120107649638330048180857552842979118412954316666831887032660919381785455786966071713736493358916149568240837283749784541301884303631273205529519740732220997118727513641796482289206924092523575094520013254843513711037046940841724513113499234783723442023387938826011028466795037316918271243636159524300495100845752451100277059337345336291096086079554065067372347752567266895527559603689093681232785260127863786438896396534967874199441265160556499213391042580673784789177098165994944872266654339101874533151239892186904657633331276977722536767499574603773244241036509564882757931609776912163426873080569064591245898728778740787548788979642054672731539679196702470070090063191338710608991085280807968482353358550021657327639076372965533996771127490781273220385482189029911

/-- The packed block after the second `init_by_array` mixing loop of seed 42. -/
def mtSeed42L2 : ℕ :=
  82663673431515298878348125892076922365783069757798526784244050598313937512767946555105567842135433541961268832679564447481930064532585187162994848009574585122686978465536439186381119346285389971015664497868787229171546936942409743491868498635940684276698436506858484119070421511331132895304993849329208393304167080010636930173614624441936828135292295563718855043520888652492240787378188287948756429859678131320313149722218900291805028338565883078467138401494859521575283099145981678792121605979857514686793130943330313770376111649808959951136893973580829458877602381614555916176041877040780308989402930592924948451008392659903891078302468096510073054561268220357432569293521497131830922044988516040316696461890252658891937812137077698326841028526045017829237605777094083838852105281119467999132979162337968258864765593801439178690440189871328494739303638814863268844841313736550299766837110548953858269079978575300077403214500257399917385654509269855280076866593554001298152333401922224966669026142300705073497006787091546588638315672230373963619276949115860857537915195517971528759783091402967302621538207894751586345254545658890812158326957740026680361046254661091788809833141626179961244339817613410573958847339378373187693619441538637775379117387231005821087272257887575588666415472628576633153140593663370835676581874735924421676041910321962267240021638441198216858885623188152818149414018042869563767627928969512731857081428011617730744208084126530327493218283188330237634627043385971325726381941006315313020942714598258310683987876910665727287731188639790124681293867861646234928635170596055347748876320543460563710598217691119774835137262721653203268760315335132369835811988465882558753871413950567187950888491278778708993179769359589212223140338911648929104812059421030013898069576284523018150963896668952801120411674791778429096110671166995381822858827748143835556358862070943257843870596573540637319545893499686427023193503527501212077208886574386377910506614773834017585095571295086219028523946090089278153258661151101652418776500307460700083973906927280045011707987505449833896480127873306359431148607415078923831461270087142319684009331203361762220712446499023695587145239836507803911814882161915063108199421454462180373951176940080591277458243306990424535174590565608117888570339351020282643416147931579001026071809341119535798341882348591866021341816283858477697743453078021468501089065876249217344973525146889733762953917240334288868075485850723093607653871568457710689630971657574294402882195859207485343534840350175651994341004124212724981721578117943060373849165947808571471891508735080997298866016147935597339741326699207245466538208100666522864891933314470052847443745362970439547486838679354253152706760662870260695765537519959477479236623427719242905028476959368576490782805659127625261440007910351269462263618011075338316276799690902972302414342081963789515076393143995054867467145996471721122262153391442956285601802605476397557566559450267605107458855443216396947043236466552312718601892346433056767222165007631025666329375837184765840658676984284898489439007535391352662806494262031897013250263783539285102395455285405586348388035372015632823519802485179765492948982546612526153800948715917650443950850763563724409276334725236486125780651617723156297129367448296429400501658864742787022386577801752109777995373643436257912637333933711048378945228596862424214289259619104637366641443538704731253676073244211636412676550633624664133121478778776111533665195661274450601309176889593940105997537866071103429448805421406604198813742993998233955753216345778991410288420119110747377910893206478621845275458581206595814392549010399578388394455596558399177559012440595257880737519332053733088704345198907442504378387452888582487598736159677336669375019252418034169126276810242464452009879946391356983340052344519479660054088553061453767842109352665840972474712870381811517528648921344229102378851273254037244071546208559258016189186158802618570846122407575805735030986258251196917519792348510966228747838123198341870470991715526936441643149113847485699378420789111139857383241164952960343291754521639145070355966654445817548644348650273031627831871495744424251118353351051222881461179282505742625883322828268681808442704003090495155928716789727084061892349514338658395371297819336306263603709114744903843904591124462052342531061608033894644700791602929417769154835809424656043301921926405984733455919977169569562649687764138614136181729139101193691064746253805507687858731219097977446277929944857559114214479159089992700650344331766417996128520977707702114605234270300941059024559973626552283595879490977810574097596817932342925187862210088032263679453624373251399815432164509970923732755899633213695217078969529292889501568936211411421832673008676464711723258486764387687868195022143610469168114413816692593499503362135502793949170225772523155861923786490569333307891612009190037098908912854496416224567772506087995574471691774742094533496432215025256857202341100016144546835039088618003145675471911061031651823919108846562898430344438333412649773016774319745863312578255622591730450250454049581974952521575677756510885726227820993325710142791982262002791705187233974393058765755898055574917073353369401448705875691147668673637031620118190837133060462247401748650653817816500141693022196589991967774605824182010372414700031888464714730496618956601046353021989592591742320641287758643958518097449941404447696168491179816629429129771105998930717437864821069172069443993350771034571599696711991967256208924709477644996763434696889220399136009975669525716352049291399547346304876650638301401301618762213031777838267774121901738861940788081719129371439913104498129403320815411623744192827189151602680112510742587865501506308134080999842352934760391759277333729625584783607717610692317409767482322713453654931345215458341138477248249917257282357085856207131022595584665377353030892790299412394424181800230114513106055999290234221809887012605716481381181377152610833997359650142432360208923679629717

/-- The packed block of `random.seed(42)`. -/
def mtSeed42 : ℕ :=
  82663673431515298878348125892076922365783069757798526784244050598313937512767946555105567842135433541961268832679564447481930064532585187162994848009574585122686978465536439186381119346285389971015664497868787229171546936942409743491868498635940684276698436506858484119070421511331132895304993849329208393304167080010636930173614624441936828135292295563718855043520888652492240787378188287948756429859678131320313149722218900291805028338565883078467138401494859521575283099145981678792121605979857514686793130943330313770376111649808959951136893973580829458877602381614555916176041877040780308989402930592924948451008392659903891078302468096510073054561268220357432569293521497131830922044988516040316696461890252658891937812137077698326841028526045017829237605777094083838852105281119467999132979162337968258864765593801439178690440189871328494739303638814863268844841313736550299766837110548953858269079978575300077403214500257399917385654509269855280076866593554001298152333401922224966669026142300705073497006787091546588638315672230373963619276949115860857537915195517971528759783091402967302621538207894751586345254545658890812158326957740026680361046254661091788809833141626179961244339817613410573958847339378373187693619441538637775379117387231005821087272257887575588666415472628576633153140593663370835676581874735924421676041910321962267240021638441198216858885623188152818149414018042869563767627928969512731857081428011617730744208084126530327493218283188330237634627043385971325726381941006315313020942714598258310683987876910665727287731188639790124681293867861646234928635170596055347748876320543460563710598217691119774835137262721653203268760315335132369835811988465882558753871413950567187950888491278778708993179769359589212223140338911648929104812059421030013898069576284523018150963896668952801120411674791778429096110671166995381822858827748143835556358862070943257843870596573540637319545893499686427023193503527501212077208886574386377910506614773834017585095571295086219028523946090089278153258661151101652418776500307460700083973906927280045011707987505449833896480127873306359431148607415078923831461270087142319684009331203361762220712446499023695587145239836507803911814882161915063108199421454462180373951176940080591277458243306990424535174590565608117888570339351020282643416147931579001026071809341119535798341882348591866021341816283858477697743453078021468501089065876249217344973525146889733762953917240334288868075485850723093607653871568457710689630971657574294402882195859207485343534840350175651994341004124212724981721578117943060373849165947808571471891508735080997298866016147935597339741326699207245466538208100666522864891933314470052847443745362970439547486838679354253152706760662870260695765537519959477479236623427719242905028476959368576490782805659127625261440007910351269462263618011075338316276799690902972302414342081963789515076393143995054867467145996471721122262153391442956285601802605476397557566559450267605107458855443216396947043236466552312718601892346433056767222165007631025666329375837184765840658676984284898489439007535391352662806494262031897013250263783539285102395455285405586348388035372015632823519802485179765492948982546612526153800948715917650443950850763563724409276334725236486125780651617723156297129367448296429400501658864742787022386577801752109777995373643436257912637333933711048378945228596862424214289259619104637366641443538704731253676073244211636412676550633624664133121478778776111533665195661274450601309176889593940105997537866071103429448805421406604198813742993998233955753216345778991410288420119110747377910893206478621845275458581206595814392549010399578388394455596558399177559012440595257880737519332053733088704345198907442504378387452888582487598736159677336669375019252418034169126276810242464452009879946391356983340052344519479660054088553061453767842109352665840972474712870381811517528648921344229102378851273254037244071546208559258016189186158802618570846122407575805735030986258251196917519792348510966228747838123198341870470991715526936441643149113847485699378420789111139857383241164952960343291754521639145070355966654445817548644348650273031627831871495744424251118353351051222881461179282505742625883322828268681808442704003090495155928716789727084061892349514338658395371297819336306263603709114744903843904591124462052342531061608033894644700791602929417769154835809424656043301921926405984733455919977169569562649687764138614136181729139101193691064746253805507687858731219097977446277929944857559114214479159089992700650344331766417996128520977707702114605234270300941059024559973626552283595879490977810574097596817932342925187862210088032263679453624373251399815432164509970923732755899633213695217078969529292889501568936211411421832673008676464711723258486764387687868195022143610469168114413816692593499503362135502793949170225772523155861923786490569333307891612009190037098908912854496416224567772506087995574471691774742094533496432215025256857202341100016144546835039088618003145675471911061031651823919108846562898430344438333412649773016774319745863312578255622591730450250454049581974952521575677756510885726227820993325710142791982262002791705187233974393058765755898055574917073353369401448705875691147668673637031620118190837133060462247401748650653817816500141693022196589991967774605824182010372414700031888464714730496618956601046353021989592591742320641287758643958518097449941404447696168491179816629429129771105998930717437864821069172069443993350771034571599696711991967256208924709477644996763434696889220399136009975669525716352049291399547346304876650638301401301618762213031777838267774121901738861940788081719129371439913104498129403320815411623744192827189151602680112510742587865501506308134080999842352934760391759277333729625584783607717610692317409767482322713453654931345215458341138477248249917257282357085856207131022595584665377353030892790299412394424181800230114513106055999290234221809887012605716481381181377152610833997359650142432360208921996034048

/-- Checkpoint: the first regeneration of the seed-42 block after 156 of its 624 iterations. -/
def mtT1 : ℕ :=
  82663673431515298878348125892076922365783069757798526784244050598313937512767946555105567842135433541961268832679564447481930064532585187162994848009574585122686978465536439186381119346285389971015664497868787229171546936942409743491868498635940684276698436506858484119070421511331132895304993849329208393304167080010636930173614624441936828135292295563718855043520888652492240787378188287948756429859678131320313149722218900291805028338565883078467138401494859521575283099145981678792121605979857514686793130943330313770376111649808959951136893973580829458877602381614555916176041877040780308989402930592924948451008392659903891078302468096510073054561268220357432569293521497131830922044988516040316696461890252658891937812137077698326841028526045017829237605777094083838852105281119467999132979162337968258864765593801439178690440189871328494739303638814863268844841313736550299766837110548953858269079978575300077403214500257399917385654509269855280076866593554001298152333401922224966669026142300705073497006787091546588638315672230373963619276949115860857537915195517971528759783091402967302621538207894751586345254545658890812158326957740026680361046254661091788809833141626179961244339817613410573958847339378373187693619441538637775379117387231005821087272257887575588666415472628576633153140593663370835676581874735924421676041910321962267240021638441198216858885623188152818149414018042869563767627928969512731857081428011617730744208084126530327493218283188330237634627043385971325726381941006315313020942714598258310683987876910665727287731188639790124681293867861646234928635170596055347748876320543460563710598217691119774835137262721653203268760315335132369835811988465882558753871413950567187950888491278778708993179769359589212223140338911648929104812059421030013898069576284523018150963896668952801120411674791778429096110671166995381822858827748143835556358862070943257843870596573540637319545893499686427023193503527501212077208886574386377910506614773834017585095571295086219028523946090089278153258661151101652418776500307460700083973906927280045011707987505449833896480127873306359431148607415078923831461270087142319684009331203361762220712446499023695587145239836507803911814882161915063108199421454462180373951176940080591277458243306990424535174590565608117888570339351020282643416147931579001026071809341119535798341882348591866021341816283858477697743453078021468501089065876249217344973525146889733762953917240334288868075485850723093607653871568457710689630971657574294402882195859207485343534840350175651994341004124212724981721578117943060373849165947808571471891508735080997298866016147935597339741326699207245466538208100666522864891933314470052847443745362970439547486838679354253152706760662870260695765537519959477479236623427719242905028476959368576490782805659127625261440007910351269462263618011075338316276799690902972302414342081963789515076393143995054867467145996471721122262153391442956285601802605476397557566559450267605107458855443216396947043236466552312718601892346433056767222165007631025666329375837184765840658676984284898489439007535391352662806494262031897013250263783539285102395455285405586348388035372015632823519802485179765492948982546612526153800948715917650443950850763563724409276334725236486125780651617723156297129367448296429400501658864742787022386577801752109777995373643436257912637333933711048378945228596862424214289259619104637366641443538704731253676073244211636412676550633624664133121478778776111533665195661274450601309176889593940105997537866071103429448805421406604198813742993998233955753216345778991410288420119110747377910893206478621845275458581206595814392549010399578388394455596558399177559012440595257880737519332053733088704345198907442504378387452888582487598736159677336669375019252418034169126276810242464452009879946391356983340052344519479660054088553061453767842109352665840972474712870381811517528648921344229102378851273254037244071546208559258016189186158802618570846122407575805735030986258251196917519792348510966228747838123198341870470991715526936441643149113847485699378420789111139857383241164952960343291754521639145070355966654445817548644348650273031627831871495744424251118353351051222881461179282505742625883322828268681808442704003090495155928716789727084061892349514338658395371297819336306263603709114744903843904591124462052342531061608033894644700791602929417769154835809424656043301921926405984733455919977169569562649687764138614136181729139101193691064746253805507687858731219097977446277929619879044990634224985979628448342935817385698045313496152871470545455235984792225114560188107880438244712680208250244222479989035493118191899953903023599431716285545071785576503894875357352790965070170037418075560437158333649143174373623252852523791904008678982042637501861008377876994287549313561600951138427398828472517627533286278380966721246554026544308446844029729870326262268712233415419496278715719178644256578688253169295043747988706998358575233862499456928228434118277054862315949365077061801959282986896196847584284023834798649176031629806433321791026534470693102710244176574810246649493610337951811004717192261436266925902638022596042335587240217105782233908417527953266324553021771990537941540866430159705768916004456494050798860334155491917957568320021037742860474264165834027975328141050638672783921190640577881567384095057254350690862783439597927594917219123809959775825428041472711202741634687936094488325346065010156954815881537322014357488719902503579365092486345639102029175249394000986458933130888102028317619297324188343082307790089760899443913791353058649154082274524683523634926069351725765136971566798025367910951938313910032516815512555488020625312993130242536373792400376113195934860124955637247140473501155996969258057766559093148485441616065718865275770169856011377149560539672040538034182283287823247042561544456949572962880045421489603494566426190267497028135912711638546586471556325074638746930286122924430228056569403191566886939685418544005695129917129530829106571339165

/-- Checkpoint: the first regeneration after 312 iterations. -/
def mtT2 : ℕ :=
  82663673431515298878348125892076922365783069757798526784244050598313937512767946555105567842135433541961268832679564447481930064532585187162994848009574585122686978465536439186381119346285389971015664497868787229171546936942409743491868498635940684276698436506858484119070421511331132895304993849329208393304167080010636930173614624441936828135292295563718855043520888652492240787378188287948756429859678131320313149722218900291805028338565883078467138401494859521575283099145981678792121605979857514686793130943330313770376111649808959951136893973580829458877602381614555916176041877040780308989402930592924948451008392659903891078302468096510073054561268220357432569293521497131830922044988516040316696461890252658891937812137077698326841028526045017829237605777094083838852105281119467999132979162337968258864765593801439178690440189871328494739303638814863268844841313736550299766837110548953858269079978575300077403214500257399917385654509269855280076866593554001298152333401922224966669026142300705073497006787091546588638315672230373963619276949115860857537915195517971528759783091402967302621538207894751586345254545658890812158326957740026680361046254661091788809833141626179961244339817613410573958847339378373187693619441538637775379117387231005821087272257887575588666415472628576633153140593663370835676581874735924421676041910321962267240021638441198216858885623188152818149414018042869563767627928969512731857081428011617730744208084126530327493218283188330237634627043385971325726381941006315313020942714598258310683987876910665727287731188639790124681293867861646234928635170596055347748876320543460563710598217691119774835137262721653203268760315335132369835811988465882558753871413950567187950888491278778708993179769359589212223140338911648929104812059421030013898069576284523018150963896668952801120411674791778429096110671166995381822858827748143835556358862070943257843870596573540637319545893499686427023193503527501212077208886574386377910506614773834017585095571295086219028523946090089278153258661151101652418776500307460700083973906927280045011707987505449833896480127873306359431148607415078923831461270087142319684009331203361762220712446499023695587145239836507803911814882161915063108199421454462180373951176940080591277458243306990424535174590565608117888570339351020282643416147931579001026071809341119535798341882348591866021341816283858477697743453078021468501089065876249217344973525146889733762953917240334288868075485850723093607653871568457710689630971657574294402882195859207485343534840350175651994341004124212724981721578117943060373849165947808571471891508735080997298866016147935597339741326699207245466538208100666522864891933314470052847443745362970439547486838679354253152706760662870260695765537519959477479236623427719242905028476959368576490782805659127625261440007910351269462263618011075338316276799690902972302414342081963789515076393143995054867467145996471721122262153391442956285601802605476397557566559450267605107458855443216396947043236466552312616079116622777769647931266284811643913430408286873214835668460236977217616098949286201334160373198571413523055912071273440252367588644174968055184158884620294122290583596395685231112253354682224402898635545159345093757345074700402032738956276954166220288319993873423218181780195811285956207899043138591059985688473431543110079858721832801057486162924337533131334378258032468951188629780320355555178385830318935128598716350351421920622899477466528358298322765131176627624028081569238242756918125495013174976632126829680537138500943022577900588731855127947502296378788222752467419814835235477699717461518540128491143144882399140437678278547026649520820239561086454958223301823181513287654669040402693442579667012186050489590711405450600115118021215938573010843532582917032338136784236001156684532504894941692923433517288627692032805061570955319443110640659270638719496922336776982558881266135358642866753511778041234785287880139953884604095297043477944967674319356021479506869683011295129365053981323764859594783811191821481346077888282699994399570270624675270865490454662904002867228160765476780408468721656898900895374662477470392119662348990762333356827356252296233704042957767998870269786185329263499178513970690748979507385868657217861767331599691573517022703412450033859496607840034491117435910469779852742012788915174578024761769263754086117311831630013490448968512205016538102843019036370780411291049748806110969005627412772578667176272224896053547679309834339180072910963951993726723548221626820147683554434135704760133075826027932744153915464448429378983807947340522307680169967408082558805093637414897603062164774534655961288799666090778989420365506777515048273421575599800303369804312167721329726812938370506784816220994411865994463675816269314743207623433615455498010281452210484682864161359029905003959827851516303704376395337025461562093765667540455368392748810517808054072696802412563109728756114646506241686041250369132773199567316748518846554481155994052616913977383453548804593076394535159247699180896456758806659719106753405511175243836446368386311625859224879579319596891890577128725283324716307872880093992134201902177525488391617094907239358729749491529729994726375472654941206140818831912181927623202101412541209212609213110600193855840452757258993264831153692005746394922257116831753344599384303536881471787210708995652103074438856714715036540345139066820046436720202608007058192123879975164342841574457019130176299072306637928372529270339387624211965443616631840022986558770099305077862516710670589024920479520210795685768302754727194314175246586174240114322288196286509439640216002989149463069417624747976663346177537030368616133354642174059552910367739048852305911305046193506011363101152309073418470164198438809928507411707158260639287798382078059722576231341137442046946915965872849399439718077829997174537522746240975618595794203752557666175978491467402386779820975396820654045834360652341319901246208160127671700128607780704244214475381846339937470846123173488634526209107357

/-- Checkpoint: the first regeneration after 468 iterations. -/
def mtT3 : ℕ :=
  82663673431515298878348125892076922365783069757798526784244050598313937512767946555105567842135433541961268832679564447481930064532585187162994848009574585122686978465536439186381119346285389971015664497868787229171546936942409743491868498635940684276698436506858484119070421511331132895304993849329208393304167080010636930173614624441936828135292295563718855043520888652492240787378188287948756429859678131320313149722218900291805028338565883078467138401494859521575283099145981678792121605979857514686793130943330313770376111649808959951136893973580829458877602381614555916176041877040780308989402930592924948451008392659903891078302468096510073054561268220357432569293521497131830922044988516040316696461890252658891937812137077698326841028526045017829237605777094083838852105281119467999132979162337968258864765593801439178690440189871328494739303638814863268844841313736550299766837110548953858269079978575300077403214500257399917385654509269855280076866593554001298152333401922224966669026142300705073497006787091546588638315672230373963619276949115860857537915195517971528759783091402967302621538207894751586345254545658890812158326957740026680361046254661091788809833141626179961244339817613410573958847339378373187693619441538637775379117387231005821087272257887575588666415472628576633153140593663370835676581874735924421676041910321962267240021638441198216858885623188152818149414018042869563767627928969512731857081428011617730744208084126530327493218283188330237634627043385971325726381940944420759866485653407928675315545134185283493211968386887208537855559430209198548617892060887472496264992948510583228702186015362987770873384319534455503063012695912928814941645887776520477578962192417483764032280665970488448699215683739685055092576736704081897842885217917018630157460586793686540138843421592555284648694569924581629255248404441244733002225659214298695825594415932047071405217667433821558198558823585136263587583717250469517662715849875190205091487701056579829236403985121079761322234346310762197860738163173919547050625400840436275266883509464008668988185569231249568078351172115969401715706424381076171248585717693469339870632139424150650243021269291924607262907060031225115220159337149760399480712292972017522277502948455780183949051668523722316705943610183329536548325329705772580627988268748876234204614464741148851963019928708795470308601126730825176195300668919976207006130457146108052296766216615692139313502421116978412215511613304168229219491994459851169750267320352230692392779682187569580232926702357698790959957248206528511611512025427893842492615686489724322269266904708495339967100432725074938400070615836827079602888773947660726668748216481969252326825729031016486589301243519855292232417694478317772205435085800413542237948540420642855402858468419468267620790765623527821641890272970381097115000553833409056586314841283929186344567570496245225883010264390102626260749947654916329728096675220624049792551864815585717353027904943751933636952897078430455938433364868671564446041469695390513259817618428091166052552388250652596510518391051498113342505430623980595784275363098660796228020080233594830242364201259040175863372111486778712648965205213449126836674008485336279495943778920994140566002447394073389646413974747278697932891329266155557022544368874281825467455798502457348233959376540969612093049375934547934868041622966232761581715220647352507795913988903373411473384105790391836860139972250681839479001326067200724337401119994436635159214058643386511789407007374921618407914199762877013292855376265968769489189492199171898534678135083398935656647686943204023562539575287947404256181759834191608716240927293347217408031423545611062985996241194563709901898381040377976226050915767190833237340368654713537478879537741678929848521330837240966608053014557580474644121668118122556870457432227779745030822590993330322046029897806681582841416060857882784565160330445983953880832379786520341927696140341694423473075588876884942651719374805558181674848086640007875242229668248035369027661087042262531419124031088761906425517543412274753399873630415221729611024736519338900095123236367478292786135474765402472378465794917244507752743607698458782349378817808458696620603205879916399615973215965238454317952307355295999159635308974814654731305437487019594230421847726576455482674866701186949992884815889429047232378256351959980212174834465089104575204490557995929195247434891490964053105106473768435702444237284479873223917365149664330611938040154449074773275500732014972561179366651005509154325271985486790744574364228739141606467604005959990042883215689023749047269967186241300349726401678643943696313697359541417905635628882891184615663034220336389090977687391693448860579255004405973884030815146828807408035168118141586003122468199302868293866788807227097491000195918645142696639665741420721803453992568867436467653418976924800976331868370487580273985333773400511585283257204233379003308914344264188801304679697576772104735414031611395862070845638717667434411118093110267118774275376589234067685686185492657031112995912119421396068176313427527564430531675312135792814525290270946879462629447742842528176429563902187159491110813422947674759878282645970912593477401913399807177942496911135153915964541037796703454562298666054673724462803335432839902072933519813489316071340832323536394887269524590637558736280499561587180324030972334737084382544077635528723012175194355422654694302850437727129697452555995764182399400512967552708235550700425593431202882163512609613709803492301143024325570804237925317677642244542422191877925919860445760869290354372535695998903489417627599790851965188333540782521680709450152700736373942327250084015036275637943480156624205299623084831416832615968002090967476035913978765709187555066776993186367789399271328448865370110261735933617128687949640578008776219905950823124926135287790200987182785091518581320728782896236056395232707023761615085804503981103141489871638196330858692605647389364929372158813754874658570058437653623417246747821560406697373

/-- The packed block after the first regeneration (`twist`) of the seed-42
block — the block the first draw of the run reads. -/
def mtSeed42T : ℕ :=
  23286412696272796128385897882899802046735748944147304095586925937806345412490055899989764787484019671778376362860042742494792413992016635194480038477926904958899144614039557626716988148046858795729988411355407357548889190298165282191259573451220739704130358456492366200248883967389173812742747365951504723827523001491684280272471146320539623073306718256054486728666524616861157674570314020673215994879601644468493397565948697625971234773093914841101193534975382259956342285658764551397402609057923396101053639833475318217931762856992618905368851508431145636474930815718376354884170331578353645378352602708588674621094947420057719398999411780746413367716750015272006187870701685896805295225270884333726677135807614285840605691082136490217584185163901883278716870542932408492276006934865950227228102565619591461173805522792331549657987608467832953423202739185593471886873026513156423612104712278866544088995443062358275943090013331027296613716195131399476645881603863139798632036678923865823483738444232435763768448564749145225791584554176552634074674452371087255094700183545843401961001081364543762853499747092448068502508107593222630087591092190301278596492271084561527815914631099970271527741341154498636817887954386114857723617590227434680446936190223263833291945243787167247149965989045571619886692880836576710444656652995794686726592702042909876779011822418497887649544399191573617662283988123334351033491691796060980506833548165946249816500531072975720101201148937385795784874674629915552672362617383321719837739429255985286112730811702868712409941153617174075894697487470068453019650904234526005029575161998672416784142896346487246864102740666523927113249728893342584950081500666413223075139020834369395133027522567192339447474603437176136121429942424113503165651764463838168080640665909102853392454355233594720929998804403108112539299819964006223882881356867663239923365640981086766641761515297600657027403195393633240963358398367554981774333956721216433851233514169545306034533986830036116585909294995659056896975306339311913500665920155125378855507762655484458244595756571073270346554631189797527287186906544490192119811857340633612822753313718241274967409117961253011924109326791253319825904752833477351536518342894139189453000956528443747216037073273671221727149026146344923908052024457850500041663850036624099467140232474787791721045655918272563736783264349783782731035180013699315093809364598771418606152417216097180548070943269883902267891435223805520989936607956077030220406868186637122337732751075798983567883250427889753615936024670428353008364175599230073860307230172879655230697897043531116402063962476243553472520178188319041538472605912360815622740862670090705068958399109665958228000669173533293354031463386330625667331834652998204824593734638096670793318709992279933082510076752228441866820292945328046102660857229395046334118857136097623449515342034623405425867640111085158005212708735355617504106639713612663723609468506576502149805431988349667888873766989901288124552226611709923696250483328623879467458940304767010528851526461680464236857867452516372589555536686351943179251598160839013012754338815351828372760694583523004453931120329908535994740543763938877977565925800314656356696314860778451301506104495553626674880902354234676963699516108316781033383469889699857398909924439587768695698940339121265261182049269862323764164620756114931585764507820465988192520691623426751401040549597714182200371618208025688973739685384513159399246575377965130891355864446900081101970162893944424756304632423169527481380468427896112720572741216587451395016309850851716420910424598867183019891667575692338585798842294879764817624284278219752523075007123801771903544143700812217310189752937873050113077832258306963562783905735500410546365130101854524919763983206841661367311933478527235156747173998039831748914357363958110023707346171262306842031879110841956153517301114814498515955290074819480993346943212015103100760064168814481550228857878687402486979821435808498704365332158722439149640862842872882305330515624683825889267770073780313093413628761960362785040821728222505917783150425670125466259757911832197125032317718132586927606140166614064453023155532373325035480075314560955164947539185016274212676845349939602719662779258735428274936191714345440299139674205179154738197015510172791710203374566887642266846822627516487759168535594197497712130627077690751420191390629676160138980402797289454242465323821263625442908510948053173773364784462190015868242922154187553627666329911751351367348284498478120355294318548190303313515398623542186825776853395891044485977185103856118630981012292810712210549436275409396561870155846749587968794410401406019592329092419797227756782883858425304340820553674101561825316271266907187479993228490833649511261948282000516355287224823701849161267658147453894622022555465564762662747236105306321164736124720441242391728630986300587810210103304386380987562148870746821955948349781742619760301217033615854063564504285773784578046390044993424643195844511653552226479317239373745300979133210860741015056170308196753896425575987365318209291810315853192469645196632559351154607507854083767429091321860317918982658720636329449846124447523343709157747028570593657907691799462999122224604858032462813412226252078689141167619669763888992450090791106235260761711380574332201438891412838064418792597077561185245612725179349795162598851806363347610022835261658434149733138082336066926500349361306074639508348727036183048346134974496623934852669861527034319363078321856867189640763771583180654524431393492146361864683494027463236383483141406826227013984680097735659500624881852509349301241846631761364507936910779621552262902646323469016683886689777023536772873711539455067644624234633639728370672550427760649707901418501965312729024468387284203044930930023127659691566401597503825305682639201612517425907130819996089253534756782958389002918536303215296996060899872406077485717625280433555794517966049296080338486659354725358640798081366344678683170445274787496285617840986482077

/-! ## Character classes used by the regular expressions -/

/-- Python regex word character `\w`, restricted to the alphabets that occur in
this data set: ASCII alphanumerics, the underscore, and the Hangul blocks
(Jamo, compatibility Jamo, and precomposed syllables). -/
def isWordChar (c : Char) : Bool :=
  c.isAlphanum || c = '_' ||
  (0x1100 ≤ c.toNat && c.toNat ≤ 0x11FF) ||
  (0x3131 ≤ c.toNat && c.toNat ≤ 0x318E) ||
  (0xAC00 ≤ c.toNat && c.toNat ≤ 0xD7A3)

/-- Python regex whitespace `\s` (the ASCII whitespace characters). -/
def isSpaceChar (c : Char) : Bool :=
  c = ' ' || c = '\t' || c = '\n' || c = '\r' || c = '\x0b' || c = '\x0c'

/-! ## Plain string helpers -/

/-- Python's substring test `pat in s`. -/
def containsSub (pat : List Char) : List Char → Bool
  | [] => pat.isPrefixOf []
  | c :: cs => pat.isPrefixOf (c :: cs) || containsSub pat cs

/-- Python's `s.replace(pat, rep, 1)`: replace the first occurrence only. -/
def replaceFirst (pat rep : List Char) : List Char → List Char
  | [] => []
  | c :: cs =>
    if pat.isPrefixOf (c :: cs) then rep ++ (c :: cs).drop pat.length
    else c :: replaceFirst pat rep cs

/-- One pass of `re.sub(r"\s+", " ", s)`: collapse every run of whitespace to a
single space. The flag records whether the previous character belonged to a
run that was already collapsed. -/
def collapseWs (prevSpace : Bool) : List Char → List Char
  | [] => []
  | c :: cs =>
    if isSpaceChar c then
      if prevSpace then collapseWs true cs else ' ' :: collapseWs true cs
    else c :: collapseWs false cs

/-- Python's `str.strip()`: drop whitespace from both ends. -/
def stripWs (l : List Char) : List Char :=
  ((l.dropWhile isSpaceChar).reverse.dropWhile isSpaceChar).reverse

/-- Models `re.sub(r"\s+", " ", s).strip()`, the tail of `drop_fillers`. -/
def normalizeWs (l : List Char) : List Char := stripWs (collapseWs false l)

/-- Decimal digit character (only ever applied to numbers below ten). -/
def digitChar : ℕ → Char
  | 0 => '0' | 1 => '1' | 2 => '2' | 3 => '3' | 4 => '4'
  | 5 => '5' | 6 => '6' | 7 => '7' | 8 => '8' | _ => '9'

/-- Decimal numeral, fuelled to keep the recursion structural. -/
def natDigitsF : ℕ → ℕ → List Char
  | 0, n => [digitChar (n % 10)]
  | fuel+1, n => if n < 10 then [digitChar n] else natDigitsF fuel (n / 10) ++ [digitChar (n % 10)]

/-- Decimal numeral of `n`, as produced by Python f-string interpolation of an
integer (the fuel `n` always suffices). -/
def natDigits (n : ℕ) : List Char := natDigitsF n n

/-! ## The lexicon and the filler list -/

/-- The `PHRASE_SYNONYMS` table, in dict insertion order. -/
def PHRASE_SYNONYMS : List (String × List String) := [
  ("안녕하세요", ["안녕하십니까", "안녕", "반갑습니다"]),
  ("안녕", ["안녕하세요", "안녕하십니까"]),
  ("감사합니다", ["고맙습니다", "정말 감사합니다", "감사해요"]),
  ("고맙습니다", ["감사합니다", "감사해요"]),
  ("미안", ["죄송", "미안해요", "미안합니다"]),
  ("죄송", ["죄송합니다", "정말 죄송합니다", "미안합니다"]),
  ("의사 선생님", ["의사님", "선생님"]),
  ("의사님", ["의사 선생님", "선생님"]),
  ("병원", ["의원", "병원"]),
  ("검진", ["건강검진", "검사"]),
  ("백신", ["예방접종", "접종"]),
  ("그런데", ["근데", "하지만"]),
  ("하지만", ["그런데", "근데"]),
  ("정말", ["진짜", "아주"])]

/-- Python dict lookup `PHRASE_SYNONYMS[key]`. -/
def synonymsOf (key : String) : List String :=
  ((PHRASE_SYNONYMS.find? (fun kv => kv.1 == key)).map Prod.snd).getD []

/-- Insert into a length-descending list, placing the new element before every
element of equal length: processed by `List.foldr`, this reproduces the stable
descending sort `sorted(keys, key=len, reverse=True)` of the source. -/
def insertByLenDesc (x : String) : List String → List String
  | [] => [x]
  | y :: ys => if y.length ≤ x.length then x :: y :: ys else y :: insertByLenDesc x ys

/-- The iteration order of `replace_phrases`: lexicon keys, longest first,
insertion order among equal lengths. -/
def sortedKeys : List String := (PHRASE_SYNONYMS.map Prod.fst).foldr insertByLenDesc []

/-- The `FILLERS` list, in source order. -/
def FILLERS : List String := ["음", "어", "아", "에", "음...", "으음", "흠"]

/-! ## Transform 1: phrase substitution -/

/-- Models `random_choice(seq) = seq[random.randrange(len(seq))]`. -/
def random_choice (seq : List String) (r : Rng) : String × Rng :=
  let (k, r') := r.range seq.length
  (seq.getD k "", r')

/-- The loop body of `replace_phrases` for one key: one Bernoulli draw always
happens (Python evaluates `random.random()` before the short-circuited
`key in out` test); on success with the key present, a second draw picks the
synonym and only the first occurrence is replaced. -/
def replaceStep (p_syn : ℚ) (acc : String × Rng) (key : String) : String × Rng :=
  let (b, r1) := acc.2.bern p_syn
  if b && containsSub key.data acc.1.data then
    let (cand, r2) := random_choice (synonymsOf key) r1
    (⟨replaceFirst key.data cand.data acc.1.data⟩, r2)
  else (acc.1, r1)

/-- Embeds `replace_phrases`: fold the per-key step over the sorted keys. -/
def replace_phrases (text : String) (p_syn : ℚ) (r : Rng) : String × Rng :=
  if p_syn ≤ 0 then (text, r)
  else sortedKeys.foldl (replaceStep p_syn) (text, r)

/-! ## Transform 2: number masking -/

/-- A character excluded by the lookarounds `(?<![#\w])` and `(?![#\w])` of
`_NUM_RE`. -/
def blocksNum (c : Char) : Bool := isWordChar c || c = '#'

/-- Whether the next character (if any) fails the lookahead `(?![#\w])`. -/
def headBlocked : List Char → Bool
  | [] => false
  | c :: _ => blocksNum c

/-- Whether the previous character (if any) fails the lookbehind `(?<![#\w])`. -/
def prevBlocked : Option Char → Bool
  | none => false
  | some c => blocksNum c

/-- Attempt to match `\d+(?:[.,]\d+)?(?![#\w])` at the head of `l`, whose head
is a digit and whose lookbehind was already checked. Returns the matched token
and the rest. This mirrors the regex engine's backtracking: if the optional
fraction group matched but the lookahead then fails, the group is given back
(the lookahead then sits on the separator and succeeds); if the bare `\d+`
fails the lookahead there is no match at this position at all. -/
def tryNum (l : List Char) : Option (List Char × List Char) :=
  let d1 := l.takeWhile Char.isDigit
  let r1 := l.dropWhile Char.isDigit
  match r1 with
  | sep :: r2 =>
    if (sep = '.' || sep = ',') && !(r2.takeWhile Char.isDigit).isEmpty then
      let d2 := r2.takeWhile Char.isDigit
      let r3 := r2.dropWhile Char.isDigit
      if headBlocked r3 then some (d1, r1) else some (d1 ++ sep :: d2, r3)
    else if blocksNum sep then none else some (d1, r1)
  | [] => some (d1, [])

/-- One segment of the `_NUM_RE` scan of a text: either characters the engine
passed over verbatim, or one matched numeric token. -/
inductive Seg where
  | raw (cs : List Char)
  | num (cs : List Char)
deriving DecidableEq

/-- The characters a segment stands for. -/
def segChars : Seg → List Char
  | .raw cs => cs
  | .num cs => cs

/-- The `_NUM_RE` scan (fuelled): `prev` is the character just before the scan
position, consulted by the lookbehind; after a match the engine resumes right
after the matched token. -/
def numSplitF (fuel : ℕ) (prev : Option Char) (l : List Char) : List Seg :=
  match fuel, l with
  | _, [] => []
  | 0, l => [Seg.raw l]
  | fuel+1, c :: cs =>
    if !prevBlocked prev && c.isDigit then
      match tryNum (c :: cs) with
      | some (m, rest) => Seg.num m :: numSplitF fuel (some (m.getLastD c)) rest
      | none => Seg.raw [c] :: numSplitF fuel (some c) cs
    else Seg.raw [c] :: numSplitF fuel (some c) cs

/-- The `_NUM_RE` scan of `l` (the fuel `l.length` always suffices). -/
def numSplit (prev : Option Char) (l : List Char) : List Seg := numSplitF l.length prev l

/-- The replacement pass of `mask_numbers`: `re.sub` calls `_repl` on each
match from left to right, so each matched token costs one Bernoulli draw and
becomes `<NUM>` exactly when the draw succeeds. -/
def maskSegs (p : ℚ) (r : Rng) : List Seg → List Char × Rng
  | [] => ([], r)
  | Seg.raw cs :: rest =>
    let (out, r') := maskSegs p r rest
    (cs ++ out, r')
  | Seg.num cs :: rest =>
    let (b, r1) := r.bern p
    let (out, r') := maskSegs p r1 rest
    ((if b then "<NUM>".data else cs) ++ out, r')

/-- Embeds `mask_numbers`. -/
def mask_numbers (text : String) (p : ℚ) (r : Rng) : String × Rng :=
  if p ≤ 0 then (text, r)
  else
    let (out, r') := maskSegs p r (numSplit none text.data)
    (⟨out⟩, r')

/-! ## Transform 3: filler removal -/

/-- The trailing class `[,. ]` consumed greedily after a filler. -/
def trailPunct (c : Char) : Bool := c = ',' || c = '.' || c = ' '

/-- The word boundary `\b` just before a filler. Every filler starts with a
word character, so the boundary holds exactly at the start of the text or
after a non-word character. -/
def atBoundary : Option Char → Bool
  | none => true
  | some c => !isWordChar c

/-- The scan of `re.sub(rf"\b{re.escape(f)}[,. ]*", "", s)` (fuelled): delete
each leftmost match, i.e. the filler plus the following run of `[,. ]`
characters, resuming right after the deleted span (whose last character is
what the next lookbehind sees). -/
def fillerScanF (fuel : ℕ) (f : List Char) (prev : Option Char) (l : List Char) : List Char :=
  match fuel, l with
  | _, [] => []
  | 0, l => l
  | fuel+1, c :: cs =>
    if atBoundary prev && f.isPrefixOf (c :: cs) && !f.isEmpty then
      let rest := (c :: cs).drop f.length
      let t := rest.takeWhile trailPunct
      let rest2 := rest.dropWhile trailPunct
      fillerScanF fuel f (some ((f ++ t).getLastD c)) rest2
    else c :: fillerScanF fuel f (some c) cs

/-- The full removal pass for one filler (the fuel `l.length` always
suffices). -/
def fillerScan (f : List Char) (l : List Char) : List Char := fillerScanF l.length f none l

/-- The loop body of `drop_fillers` for one filler: one Bernoulli draw; on
success every match of that filler is deleted. -/
def fillerStep (p : ℚ) (acc : List Char × Rng) (f : String) : List Char × Rng :=
  let (b, r1) := acc.2.bern p
  (if b then fillerScan f.data acc.1 else acc.1, r1)

/-- Embeds `drop_fillers`: one Bernoulli draw per filler in `FILLERS` order; on
success every match of that filler is deleted; at the end whitespace runs are
collapsed and the result is stripped. -/
def drop_fillers (text : String) (p : ℚ) (r : Rng) : String × Rng :=
  if p ≤ 0 then (text, r)
  else
    let (out, r') := FILLERS.foldl (fillerStep p) (text.data, r)
    (⟨normalizeWs out⟩, r')

/-! ## Transform 4: punctuation jitter -/

/-- The character loop of `punct_jitter`. A Bernoulli draw happens only when
the character is `?`, `!` or `,` (Python short-circuits the membership test
before calling `random.random()`); on success one more draw picks the
replacement. -/
def jitterChars (p : ℚ) : Rng → List Char → List Char × Rng
  | r, [] => ([], r)
  | r, ch :: cs =>
    if ch = '?' || ch = '!' then
      let (b, r1) := r.bern p
      if b then
        let (s, r2) := random_choice [⟨[ch, ch]⟩, "!?", "?!", ⟨[ch]⟩] r1
        let (rest, r3) := jitterChars p r2 cs
        (s.data ++ rest, r3)
      else
        let (rest, r2) := jitterChars p r1 cs
        (ch :: rest, r2)
    else if ch = ',' then
      let (b, r1) := r.bern p
      if b then
        let (s, r2) := random_choice [", ", ",", "; "] r1
        let (rest, r3) := jitterChars p r2 cs
        (s.data ++ rest, r3)
      else
        let (rest, r2) := jitterChars p r1 cs
        (ch :: rest, r2)
    else
      let (rest, r1) := jitterChars p r cs
      (ch :: rest, r1)

/-- Embeds `punct_jitter`. -/
def punct_jitter (text : String) (p : ℚ) (r : Rng) : String × Rng :=
  if p ≤ 0 then (text, r)
  else
    let (out, r') := jitterChars p r text.data
    (⟨out⟩, r')

/-! ## The pipeline, the sampling policy, and the assembler -/

/-- Embeds the `AugmentConfig` dataclass. -/
structure AugmentConfig where
  p_syn : ℚ
  p_mask_num : ℚ
  p_drop_filler : ℚ
  p_punct : ℚ
  seed : ℤ
deriving DecidableEq

/-- `AugmentConfig(seed=seed)`: the dataclass defaults 0.3, 0.4, 0.5, 0.2
together with the run's seed. -/
def defaultConfig (seed : ℤ) : AugmentConfig :=
  ⟨mkRat 3 10, mkRat 2 5, mkRat 1 2, mkRat 1 5, seed⟩

/-- Embeds `augment_dialogue`: the four transforms in their fixed order, each
consuming the previous one's output and advancing the one generator. -/
def augment_dialogue (text : String) (cfg : AugmentConfig) (r : Rng) : String × Rng :=
  let (t1, r1) := replace_phrases text cfg.p_syn r
  let (t2, r2) := mask_numbers t1 cfg.p_mask_num r1
  let (t3, r3) := drop_fillers t2 cfg.p_drop_filler r2
  punct_jitter t3 cfg.p_punct r3

/-- Embeds `ensure_unique_fname`, the f-string `f"{fname}_aug{idx}"`. -/
def ensure_unique_fname (fname : String) (idx : ℕ) : String :=
  fname ++ "_aug" ++ ⟨natDigits idx⟩

/-- Round-half-to-even of the fraction `a / b` (for `b > 0`), the behaviour of
Python's `round` on an exact value. -/
def roundHalfEven (a b : ℤ) : ℤ :=
  let q := a / b
  let r := a % b
  if 2 * r < b then q
  else if b < 2 * r then q + 1
  else if q % 2 = 0 then q else q + 1

/-- Embeds `compute_aug_count`. The factor is an exact rational, so
`n_rows * factor` is the fraction `(n_rows * factor.num) / factor.den` and
`int(round(...))` is its round-half-to-even. -/
def compute_aug_count (n_rows : ℕ) (factor : ℚ) : ℕ :=
  if factor ≤ 0 then 0
  else max 1 (roundHalfEven ((n_rows : ℤ) * factor.num) (factor.den : ℤ)).toNat

/-- One dataset row, carrying the four required columns. -/
structure Row where
  fname : String
  dialogue : String
  summary : String
  topic : String
deriving DecidableEq

instance : Inhabited Row := ⟨⟨"", "", "", ""⟩⟩

/-- The parsed input file: the column header and the rows. Only the four
required columns carry data in this model; the header may mention or omit any
of them. -/
structure Frame where
  cols : List String
  rows : List Row
deriving DecidableEq

/-- The `required_cols` list of `run_augment`. -/
def required_cols : List String := ["fname", "dialogue", "summary", "topic"]

/-- The first required column missing from the header, if any: the column
check of `run_augment` raises at the first one in `required_cols` order. -/
def findMissing (cols : List String) : Option String :=
  required_cols.find? (fun c => !(cols.contains c))

/-- The single-quote character. -/
def squote : String := ⟨[Char.ofNat 39]⟩

/-- The `ValueError` message for a missing column, namely the f-string
`f"Missing required column {c!r} in {input_csv}"` spelled with quotes. -/
def missingMsg (c input_csv : String) : String :=
  "Missing required column " ++ squote ++ c ++ squote ++ " in " ++ input_csv

/-- Models `df.head(limit)` when a limit is given, the identity otherwise. -/
def srcRows (limit : Option ℕ) (rows : List Row) : List Row :=
  match limit with
  | some k => rows.take k
  | none => rows

/-- Models the comprehension `[random.randrange(n) for _ in range(m)]`:
`randrange` raises `ValueError` on an empty range, so the result is `none`
when `n = 0` and a draw is requested. -/
def sampleIndices (n : ℕ) : Rng → ℕ → Option (List ℕ × Rng)
  | r, 0 => some ([], r)
  | r, m+1 =>
    if n = 0 then none
    else
      match sampleIndices n (r.range n).2 m with
      | some (l, r2) => some ((r.range n).1 :: l, r2)
      | none => none

/-- The synthetic row generated from source row `src` at generation index `i`,
its dialogue produced by one pipeline pass from generator state `r`. -/
def mkAugRow (src : Row) (i : ℕ) (cfg : AugmentConfig) (r : Rng) : Row :=
  ⟨ensure_unique_fname src.fname i, (augment_dialogue src.dialogue cfg r).1,
   src.summary, src.topic⟩

/-- The generation loop of `run_augment` over `sample_idx`: `i` is the 0-based
generation index of the next synthetic row. -/
def buildAugRows (df : List Row) (cfg : AugmentConfig) : Rng → List ℕ → ℕ → List Row × Rng
  | r, [], _ => ([], r)
  | r, srcIdx :: restIdx, i =>
    let src := df.getD srcIdx default
    let aug := augment_dialogue src.dialogue cfg r
    let row : Row := ⟨ensure_unique_fname src.fname i, aug.1, src.summary, src.topic⟩
    let rest := buildAugRows df cfg aug.2 restIdx (i+1)
    (row :: rest.1, rest.2)

/-- Outcome of a successful run: the rows written to the output file together
with the reported pair `(rows_in, rows_out)`. -/
structure RunResult where
  output : List Row
  rows_in : ℕ
  rows_out : ℕ
deriving DecidableEq

/-- Embeds `run_augment`. The input file is given as its parsed `Frame` plus
its path (used only in the missing-column message); the rows written to
`output_csv` are returned in the result instead of being written. -/
def run_augment (input : Frame) (input_csv : String) (factor : ℚ) (seed : ℤ)
    (limit : Option ℕ) : Except String RunResult :=
  let r0 := seedRng seed
  match findMissing input.cols with
  | some c => .error (missingMsg c input_csv)
  | none =>
    let df := srcRows limit input.rows
    let cfg := defaultConfig seed
    let n := df.length
    let m := compute_aug_count n factor
    if m = 0 then .ok ⟨df, n, 0⟩
    else
      match sampleIndices n r0 m with
      | none => .error "empty range for randrange()"
      | some (idxs, r1) =>
        let rows := (buildAugRows df cfg r1 idxs 0).1
        let out := df ++ rows
        .ok ⟨out, n, out.length⟩

/-- The output ids of a run, empty when the run raised. -/
def outFnames (e : Except String RunResult) : List String :=
  match e with
  | .ok res => res.output.map Row.fname
  | .error _ => []

/-! ## Derived notions used by the statements -/

/-- The characters a segment list stands for. -/
def segsJoin (segs : List Seg) : List Char :=
  segs.foldr (fun s acc => segChars s ++ acc) []

/-- The character seen by a lookbehind after passing a segment with characters
`cs`: its last character, or the old context when it is empty. -/
def lastCtx (prev : Option Char) (cs : List Char) : Option Char :=
  match cs.getLast? with
  | some c => some c
  | none => prev

/-- Soundness of the masked positions: every `num` segment stands at a spot
where the character before it (tracked by the context) is neither a word
character nor `#`, the token is nonempty, and the character right after it is
neither a word character nor `#`. -/
def numBoundaryOk : Option Char → List Seg → Prop
  | _, [] => True
  | prev, Seg.raw cs :: rest => numBoundaryOk (lastCtx prev cs) rest
  | prev, Seg.num cs :: rest =>
    prevBlocked prev = false ∧ cs ≠ [] ∧ headBlocked (segsJoin rest) = false ∧
    numBoundaryOk (lastCtx prev cs) rest

/-- The text produced when every Bernoulli trial succeeds: each matched token
becomes the placeholder. -/
def maskAll (segs : List Seg) : List Char :=
  segs.foldr
    (fun s acc => (match s with | .raw cs => cs | .num _ => "<NUM>".data) ++ acc) []

/-- Whether a segment is a pass-through one. -/
def Seg.isRaw : Seg → Bool
  | .raw _ => true
  | .num _ => false

/-- Declarative description of one `re.sub(rf"\b{re.escape(f)}[,. ]*", "", s)`
pass, read off the spec of a leftmost-match substitution: scanning left to
right with the previous character as context, an occurrence of `f` starting at
a word boundary is deleted together with the following run of `,`/`.`/space
characters and scanning resumes after the deleted span; any position that does
not start such an occurrence keeps its character. -/
inductive FillerDel (f : List Char) : Option Char → List Char → List Char → Prop
  | nil (prev : Option Char) : FillerDel f prev [] []
  | keep (prev : Option Char) (c : Char) (cs out : List Char) :
      (atBoundary prev && f.isPrefixOf (c :: cs)) = false →
      FillerDel f (some c) cs out →
      FillerDel f prev (c :: cs) (c :: out)
  | del (prev : Option Char) (c : Char) (cs out : List Char) :
      (atBoundary prev && f.isPrefixOf (c :: cs)) = true →
      FillerDel f
        (some ((f ++ ((c :: cs).drop f.length).takeWhile trailPunct).getLastD c))
        (((c :: cs).drop f.length).dropWhile trailPunct) out →
      FillerDel f prev (c :: cs) out

/-- The concrete one-row frame used by the C2 witness. -/
def wFrame : Frame := ⟨required_cols, [⟨"r0", "hi", "s", "t"⟩]⟩

/-- Value of a big-endian decimal digit string. -/
def digitsVal (l : List Char) : ℕ :=
  l.foldl (fun a c => 10 * a + (c.toNat - 48)) 0

/-- The frame whose original ids collide with a derived id. -/
def collisionFrame : Frame :=
  ⟨required_cols, [⟨"x", "d", "s", "t"⟩, ⟨"x_aug0", "d", "s", "t"⟩]⟩

/-- The well-behaved frame of the C8 witness. -/
def nodupFrame : Frame :=
  ⟨required_cols, [⟨"a", "d", "s", "t"⟩, ⟨"b", "d", "s", "t"⟩]⟩

/-! ## Basic facts about the generator -/

/-- The exclusive-or of two 32-bit values is a 32-bit value. -/
theorem xor_lt_32 (a b : ℕ) (ha : a < 4294967296) (hb : b < 4294967296) :
    a ^^^ b < 4294967296 := by
  have h32 : (4294967296 : ℕ) = 2 ^ 32 := by norm_num
  rw [h32] at ha hb ⊢
  exact Nat.xor_lt_two_pow ha hb

/-- Every packed word is a 32-bit value. -/
theorem mtGet_lt (s i : ℕ) : mtGet s i < 4294967296 := by
  have h : mtGet s i ≤ mtMask := Nat.and_le_right
  have h2 : mtMask < 4294967296 := by norm_num [mtMask]
  omega

/-- Tempering keeps the word in 32 bits. -/
theorem temper_lt (y : ℕ) (hy : y < 4294967296) : temper y < 4294967296 := by
  have hshr : ∀ (x k : ℕ), x < 4294967296 → x >>> k < 4294967296 := fun x k hx =>
    lt_of_le_of_lt (by rw [Nat.shiftRight_eq_div_pow]; exact Nat.div_le_self x (2 ^ k)) hx
  have hand : ∀ (x m : ℕ), m < 4294967296 → x &&& m < 4294967296 := fun x m hm =>
    lt_of_le_of_lt Nat.and_le_right hm
  have key : ∀ x : ℕ, x < 4294967296 →
      ∀ m k : ℕ, m < 4294967296 → x ^^^ ((x <<< k) &&& m) < 4294967296 := by
    intro x hx m k hm
    exact xor_lt_32 _ _ hx (hand _ _ hm)
  have h1 : y ^^^ (y >>> 11) < 4294967296 := xor_lt_32 _ _ hy (hshr _ _ hy)
  have h2 := key _ h1 2636928640 7 (by norm_num)
  have h3 := key _ h2 4022730752 15 (by norm_num)
  exact xor_lt_32 _ _ h3 (hshr _ _ h3)

/-- Every word the generator hands out is a 32-bit value. -/
theorem Rng.next_lt (r : Rng) : (r.next).1 < 4294967296 := by
  rw [Rng.next]
  split
  · exact temper_lt _ (mtGet_lt _ _)
  · exact temper_lt _ (mtGet_lt _ _)

/-- The `random.random()` numerator lies below 2^53. -/
theorem Rng.random_lt (r : Rng) : (r.random).1 < 9007199254740992 := by
  have ha := r.next_lt
  have hb := ((r.next).2).next_lt
  have ha2 : (r.next).1 >>> 5 < 134217728 := by
    rw [Nat.shiftRight_eq_div_pow, show (2 : ℕ) ^ 5 = 32 from rfl]
    omega
  have hb2 : (((r.next).2).next).1 >>> 6 < 67108864 := by
    rw [Nat.shiftRight_eq_div_pow, show (2 : ℕ) ^ 6 = 64 from rfl]
    omega
  show ((r.next).1 >>> 5) * 67108864 + ((((r.next).2).next).1 >>> 6) < 9007199254740992
  omega

/-- With probability 1 every Bernoulli trial succeeds: the draw `num / 2^53`
is below 1. -/
theorem Rng.bern_one (r : Rng) : r.bern 1 = (true, (r.random).2) := by
  unfold Rng.bern
  have h := r.random_lt
  simp only [Rat.den_ofNat, Rat.num_ofNat]
  norm_num
  exact_mod_cast h

/-- A rejection-sampling result is always below the bound. -/
theorem randbelowF_lt (n : ℕ) (hn : n ≠ 0) :
    ∀ (fuel : ℕ) (r : Rng), (randbelowF n fuel r).1 < n := by
  intro fuel
  induction fuel with
  | zero => intro r; exact Nat.pos_of_ne_zero hn
  | succ fuel ih =>
    intro r
    show (if (r.getrandbits (bitLength n)).1 < n
        then ((r.getrandbits (bitLength n)).1, (r.getrandbits (bitLength n)).2)
        else randbelowF n fuel (r.getrandbits (bitLength n)).2).1 < n
    by_cases h : (r.getrandbits (bitLength n)).1 < n
    · rw [if_pos h]
      exact h
    · rw [if_neg h]
      exact ih _

/-- `randrange(n)` yields an index below `n` for nonempty ranges. -/
theorem Rng.range_lt (r : Rng) (n : ℕ) (hn : n ≠ 0) : (r.range n).1 < n :=
  randbelowF_lt n hn 1000 r

/-- Splitting a fixed-count iteration. -/
theorem iterN_add {α : Type} (f : α → α) (m n : ℕ) (s : α) :
    iterN f (m + n) s = iterN f n (iterN f m s) := by
  induction m generalizing s with
  | zero =>
    rw [Nat.zero_add]
    rfl
  | succ m ih =>
    rw [show m + 1 + n = (m + n) + 1 from by omega]
    rw [show iterN f ((m + n) + 1) s = iterN f (m + n) (f s) from rfl]
    rw [ih (f s)]
    rfl

set_option maxRecDepth 100000 in
/-- First 156 iterations of `init_genrand(19650218)`. -/
theorem initGenrandA : iterN initStep 156 (19650218, 0) = (mtI1, 156) := by
  rfl

set_option maxRecDepth 100000 in
/-- Iterations 157 to 312 of `init_genrand(19650218)`. -/
theorem initGenrandB : iterN initStep 156 (mtI1, 156) = (mtI2, 312) := by
  rfl

set_option maxRecDepth 100000 in
/-- Iterations 313 to 468 of `init_genrand(19650218)`. -/
theorem initGenrandC : iterN initStep 156 (mtI2, 312) = (mtI3, 468) := by
  rfl

set_option maxRecDepth 100000 in
/-- Iterations 469 to 623 of `init_genrand(19650218)`. -/
theorem initGenrandD : iterN initStep 155 (mtI3, 468) = (mtInit19650218, 623) := by
  rfl

/-- The state of `init_genrand(19650218)`, the common starting point of
`init_by_array`, assembled from its four certified stretches. -/
theorem initGenrand_19650218 : initGenrand 19650218 = mtInit19650218 := by
  rw [initGenrand, show ((19650218 : ℕ) &&& mtMask) = 19650218 from rfl,
    show (623 : ℕ) = 156 + 156 + 156 + 155 from rfl, iterN_add, iterN_add, iterN_add,
    initGenrandA, initGenrandB, initGenrandC, initGenrandD]

set_option maxRecDepth 100000 in
/-- First 156 iterations of the first `init_by_array` mixing loop of seed 42. -/
theorem seedLoop1A : iterN (seedStep1 [42]) 156 (mtInit19650218, 1, 0) = (mtS1a, 157, 0) := by
  rfl

set_option maxRecDepth 100000 in
/-- Iterations 157 to 312 of the first mixing loop of seed 42. -/
theorem seedLoop1B : iterN (seedStep1 [42]) 156 (mtS1a, 157, 0) = (mtS1b, 313, 0) := by
  rfl

set_option maxRecDepth 100000 in
/-- Iterations 313 to 468 of the first mixing loop of seed 42. -/
theorem seedLoop1C : iterN (seedStep1 [42]) 156 (mtS1b, 313, 0) = (mtS1c, 469, 0) := by
  rfl

set_option maxRecDepth 100000 in
/-- Iterations 469 to 624 of the first mixing loop of seed 42 (the state
cursor wraps at 624). -/
theorem seedLoop1D : iterN (seedStep1 [42]) 156 (mtS1c, 469, 0) = (mtSeed42L1, 2, 0) := by
  rfl

/-- The first `init_by_array` mixing loop on the key of seed 42. -/
theorem seedLoop1_42 : seedLoop1 [42] = (mtSeed42L1, 2, 0) := by
  rw [seedLoop1, initGenrand_19650218]
  show iterN (seedStep1 [42]) 624 (mtInit19650218, 1, 0) = (mtSeed42L1, 2, 0)
  rw [show (624 : ℕ) = 156 + 156 + 156 + 156 from rfl, iterN_add, iterN_add, iterN_add,
    seedLoop1A, seedLoop1B, seedLoop1C, seedLoop1D]

set_option maxRecDepth 100000 in
/-- First 156 iterations of the second `init_by_array` mixing loop of seed 42. -/
theorem seedLoop2A : iterN seedStep2 156 (mtSeed42L1, 2) = (mtS2a, 158) := by
  rfl

set_option maxRecDepth 100000 in
/-- Iterations 157 to 312 of the second mixing loop of seed 42. -/
theorem seedLoop2B : iterN seedStep2 156 (mtS2a, 158) = (mtS2b, 314) := by
  rfl

set_option maxRecDepth 100000 in
/-- Iterations 313 to 468 of the second mixing loop of seed 42. -/
theorem seedLoop2C : iterN seedStep2 156 (mtS2b, 314) = (mtS2c, 470) := by
  rfl

set_option maxRecDepth 100000 in
/-- Iterations 469 to 623 of the second mixing loop of seed 42. -/
theorem seedLoop2D : iterN seedStep2 155 (mtS2c, 470) = (mtSeed42L2, 2) := by
  rfl

/-- The second `init_by_array` mixing loop on the key of seed 42. -/
theorem seedLoop2_42 : seedLoop2 [42] = (mtSeed42L2, 2) := by
  rw [seedLoop2, seedLoop1_42]
  show iterN seedStep2 623 (mtSeed42L1, 2) = (mtSeed42L2, 2)
  rw [show (623 : ℕ) = 156 + 156 + 156 + 155 from rfl, iterN_add, iterN_add, iterN_add,
    seedLoop2A, seedLoop2B, seedLoop2C, seedLoop2D]

/-- The full `init_by_array` on the key of seed 42. -/
theorem initByArray_42 : initByArray (intKey 42) = mtSeed42 := by
  rw [show intKey 42 = [42] from rfl, initByArray, seedLoop2_42]
  rfl

theorem seedRng_42 : seedRng 42 = ⟨mtSeed42, 624⟩ := by
  rw [seedRng, show ((42 : ℤ)).natAbs = 42 from rfl, initByArray_42]

set_option maxRecDepth 100000 in
/-- First 156 iterations of the first regeneration of the seed-42 block. -/
theorem twistA : iterN twistStep 156 (mtSeed42, 0) = (mtT1, 156) := by
  rfl

set_option maxRecDepth 100000 in
/-- Iterations 157 to 312 of the first regeneration. -/
theorem twistB : iterN twistStep 156 (mtT1, 156) = (mtT2, 312) := by
  rfl

set_option maxRecDepth 100000 in
/-- Iterations 313 to 468 of the first regeneration. -/
theorem twistC : iterN twistStep 156 (mtT2, 312) = (mtT3, 468) := by
  rfl

set_option maxRecDepth 100000 in
/-- Iterations 469 to 624 of the first regeneration. -/
theorem twistD : iterN twistStep 156 (mtT3, 468) = (mtSeed42T, 624) := by
  rfl

/-- The first regeneration of the seed-42 block. -/
theorem twist_42 : twist mtSeed42 = mtSeed42T := by
  rw [twist, show (624 : ℕ) = 156 + 156 + 156 + 156 from rfl, iterN_add, iterN_add, iterN_add,
    twistA, twistB, twistC, twistD]

/-- The first word drawn after `random.seed(42)`: the draw regenerates the
block (certified stretchwise above) and tempers its word 0. -/
theorem next_42a : Rng.next ⟨mtSeed42, 624⟩ = (2746317213, ⟨mtSeed42T, 1⟩) := by
  rw [Rng.next, if_pos (show (⟨mtSeed42, 624⟩ : Rng).index ≥ 624 from le_refl 624),
    show (⟨mtSeed42, 624⟩ : Rng).state = mtSeed42 from rfl, twist_42]
  rfl

set_option maxRecDepth 100000 in
/-- `randrange(2)` right after `random.seed(42)` draws 0: the first word's top
two bits are `10` (the draw 2 is rejected by `_randbelow`), the second word's
top two bits are `00`. -/
theorem range_42 : Rng.range ⟨mtSeed42, 624⟩ 2 = (0, ⟨mtSeed42T, 2⟩) := by
  rw [show Rng.range ⟨mtSeed42, 624⟩ 2 =
      (let a := Rng.getrandbits ⟨mtSeed42, 624⟩ 2;
       if a.1 < 2 then (a.1, a.2) else randbelowF 2 999 a.2) from rfl]
  rw [show Rng.getrandbits ⟨mtSeed42, 624⟩ 2 = (2, ⟨mtSeed42T, 1⟩) from by
    rw [Rng.getrandbits, next_42a]
    rfl]
  decide

set_option maxRecDepth 100000 in
/-- The one-element index sample of the collision run: index 0. -/
theorem sample_42 : sampleIndices 2 ⟨mtSeed42, 624⟩ 1 = some ([0], ⟨mtSeed42T, 2⟩) := by
  rw [show sampleIndices 2 ⟨mtSeed42, 624⟩ 1 =
      some ([(Rng.range ⟨mtSeed42, 624⟩ 2).1], (Rng.range ⟨mtSeed42, 624⟩ 2).2) from rfl]
  rw [range_42]

/-! ## C1: determinism of the pipeline -/

/-- C1: the whole run is a function of the parsed input, the path, the factor,
the seed and the limit alone — all randomness flows from the one generator
seeded at the start, so two runs with identical input, configuration and seed
return identical results (output rows, sampled indices, augmented dialogues,
and the reported counts alike). -/
theorem run_augment_deterministic (i1 i2 : Frame) (p1 p2 : String) (f1 f2 : ℚ)
    (s1 s2 : ℤ) (l1 l2 : Option ℕ)
    (hi : i1 = i2) (hp : p1 = p2) (hf : f1 = f2) (hs : s1 = s2) (hl : l1 = l2) :
    run_augment i1 p1 f1 s1 l1 = run_augment i2 p2 f2 s2 l2 := by
  subst hi; subst hp; subst hf; subst hs; subst hl; rfl

/-- Witness for C1 at a concrete one-row dataset. -/
theorem run_augment_deterministic_witness :
    run_augment ⟨required_cols, [⟨"a", "d", "s", "t"⟩]⟩ "in.csv" (mkRat 1 2) 42 none =
      run_augment ⟨required_cols, [⟨"a", "d", "s", "t"⟩]⟩ "in.csv" (mkRat 1 2) 42 none :=
  run_augment_deterministic _ _ _ _ _ _ _ _ _ _ rfl rfl rfl rfl rfl

/-! ## C4: the reported pair on the pass-through branch -/

/-- C4 (code-bug exhibit): on a 2-row input with factor 0 the pass-through
branch writes the two original rows yet returns `(2, 0)` — the reported
`rows_out` is 0, not the written row count 2 that the claim (and the run's
own summary line) promises. -/
theorem run_augment_passthrough_reports_zero :
    run_augment ⟨required_cols, [⟨"a", "da", "sa", "ta"⟩, ⟨"b", "db", "sb", "tb"⟩]⟩
        "in.csv" 0 42 none =
      .ok ⟨[⟨"a", "da", "sa", "ta"⟩, ⟨"b", "db", "sb", "tb"⟩], 2, 0⟩ ∧
    ([⟨"a", "da", "sa", "ta"⟩, ⟨"b", "db", "sb", "tb"⟩] : List Row).length = 2 :=
  ⟨rfl, rfl⟩

/-! ## C9: the missing-column check -/

/-- C9: when a required column is missing, `run_augment` fails with the
`ValueError` message naming the first missing column and the input path; the
failure is decided by the header alone — whatever the rows hold, no sampling
or transform runs and no output is produced. -/
theorem run_augment_missing_column (input : Frame) (path : String) (factor : ℚ)
    (seed : ℤ) (limit : Option ℕ)
    (h : ∃ c ∈ required_cols, input.cols.contains c = false) :
    ∃ c, findMissing input.cols = some c ∧ c ∈ required_cols ∧
      input.cols.contains c = false ∧
      ∀ rows2 : List Row,
        run_augment ⟨input.cols, rows2⟩ path factor seed limit =
          .error (missingMsg c path) := by
  obtain ⟨c0, hc0, hmem⟩ := h
  have hsome : (findMissing input.cols).isSome := by
    rw [findMissing, List.find?_isSome]
    exact ⟨c0, hc0, by simpa using hmem⟩
  obtain ⟨c, hc⟩ := Option.isSome_iff_exists.mp hsome
  refine ⟨c, hc, List.mem_of_find?_eq_some hc, ?_, ?_⟩
  · have := List.find?_some hc
    simpa using this
  · intro rows2
    unfold run_augment
    simp only [hc]

/-- Witness for C9: a header lacking the `topic` column. -/
theorem run_augment_missing_column_witness :
    ∃ c, findMissing ["fname", "dialogue", "summary"] = some c ∧ c ∈ required_cols ∧
      (["fname", "dialogue", "summary"] : List String).contains c = false ∧
      ∀ rows2 : List Row,
        run_augment ⟨["fname", "dialogue", "summary"], rows2⟩ "in.csv" 1 7 none =
          .error (missingMsg c "in.csv") :=
  run_augment_missing_column ⟨["fname", "dialogue", "summary"], []⟩ "in.csv" 1 7 none
    ⟨"topic", by decide, by decide⟩

/-! ## C10: an empty dataset with a positive factor -/

/-- C10: with zero source rows and a positive factor the sampling count is
still 1 (the minimum floor applies at n = 0), and the run then raises on
`random.randrange(0)` — the empty range — so no output is produced. -/
theorem run_augment_empty_input (path : String) (factor : ℚ) (seed : ℤ)
    (limit : Option ℕ) (cols : List String)
    (hcols : findMissing cols = none) (hf : 0 < factor) :
    compute_aug_count 0 factor = 1 ∧
    run_augment ⟨cols, []⟩ path factor seed limit =
      .error "empty range for randrange()" := by
  have hden : (0 : ℤ) < (factor.den : ℤ) := by exact_mod_cast factor.pos
  have hm : compute_aug_count 0 factor = 1 := by
    have h0 : ((0 : ℕ) : ℤ) * factor.num = 0 := by norm_num
    rw [compute_aug_count, if_neg (not_le.mpr hf), h0]
    have hr : roundHalfEven 0 (factor.den : ℤ) = 0 := by
      simp only [roundHalfEven, Int.zero_ediv, Int.zero_emod, mul_zero]
      rw [if_pos hden]
    rw [hr]
    rfl
  have hsrc : srcRows limit ([] : List Row) = [] := by
    cases limit <;> simp [srcRows]
  constructor
  · exact hm
  · unfold run_augment
    simp only [hcols, hsrc, List.length_nil, hm]
    norm_num
    rfl

/-- Witness for C10 at factor one half. -/
theorem run_augment_empty_input_witness :
    compute_aug_count 0 (mkRat 1 2) = 1 ∧
    run_augment ⟨required_cols, []⟩ "in.csv" (mkRat 1 2) 42 none =
      .error "empty range for randrange()" :=
  run_augment_empty_input "in.csv" (mkRat 1 2) 42 none required_cols (by decide) (by decide)

/-! ## C3: the sampling count -/

/-- The rounding used by `compute_aug_count` lands within one half of the
exact fraction. -/
theorem roundHalfEven_close (a b : ℤ) (hb : 0 < b) :
    |((roundHalfEven a b : ℤ) : ℚ) - (a : ℚ) / (b : ℚ)| ≤ 1 / 2 := by
  have hsplit : b * (a / b) + a % b = a := Int.ediv_add_emod a b
  have hr0 : 0 ≤ a % b := Int.emod_nonneg a hb.ne'
  have hr1 : a % b < b := Int.emod_lt_of_pos a hb
  have hbq : (0 : ℚ) < (b : ℚ) := by exact_mod_cast hb
  have hbq' : (b : ℚ) ≠ 0 := ne_of_gt hbq
  have hfrac : (a : ℚ) / (b : ℚ) = ((a / b : ℤ) : ℚ) + ((a % b : ℤ) : ℚ) / (b : ℚ) := by
    have hint : ((a / b : ℤ) : ℚ) * (b : ℚ) + ((a % b : ℤ) : ℚ) = (a : ℚ) := by
      exact_mod_cast (by linarith [hsplit] : (a / b) * b + a % b = a)
    field_simp
    linarith [hint]
  have hrq0 : (0 : ℚ) ≤ ((a % b : ℤ) : ℚ) := by exact_mod_cast hr0
  have hrq1 : ((a % b : ℤ) : ℚ) < (b : ℚ) := by exact_mod_cast hr1
  have hge : (0 : ℚ) ≤ ((a % b : ℤ) : ℚ) / (b : ℚ) := div_nonneg hrq0 hbq.le
  have hlt : ((a % b : ℤ) : ℚ) / (b : ℚ) < 1 := (div_lt_one hbq).mpr hrq1
  simp only [roundHalfEven]
  by_cases h1 : 2 * (a % b) < b
  · rw [if_pos h1, hfrac]
    have : 2 * ((a % b : ℤ) : ℚ) ≤ (b : ℚ) := by exact_mod_cast h1.le
    have hhalf : ((a % b : ℤ) : ℚ) / (b : ℚ) ≤ 1 / 2 := by
      rw [div_le_div_iff₀ hbq (by norm_num : (0 : ℚ) < 2)]
      linarith
    rw [abs_le]
    constructor <;> push_cast <;> linarith
  · rw [if_neg h1]
    have h1' : b ≤ 2 * (a % b) := not_lt.mp h1
    have hhalf : 1 / 2 ≤ ((a % b : ℤ) : ℚ) / (b : ℚ) := by
      rw [div_le_div_iff₀ (by norm_num : (0 : ℚ) < 2) hbq]
      have : (b : ℚ) ≤ 2 * ((a % b : ℤ) : ℚ) := by exact_mod_cast h1'
      linarith
    by_cases h2 : b < 2 * (a % b)
    · rw [if_pos h2, hfrac, abs_le]
      constructor <;> push_cast <;> linarith
    · rw [if_neg h2]
      have htie : 2 * ((a % b : ℤ) : ℚ) = (b : ℚ) := by
        have : 2 * (a % b) = b := le_antisymm (not_lt.mp h2) h1'
        exact_mod_cast this
      have htie' : ((a % b : ℤ) : ℚ) / (b : ℚ) = 1 / 2 := by
        rw [eq_div_iff (by norm_num : (2 : ℚ) ≠ 0)] at *
        field_simp
        linarith
      by_cases h3 : a / b % 2 = 0
      · rw [if_pos h3, hfrac, abs_le]
        constructor <;> push_cast <;> linarith
      · rw [if_neg h3, hfrac, abs_le]
        constructor <;> push_cast <;> linarith

/-- C3: `compute_aug_count` returns 0 for a non-positive factor, and otherwise
`max 1 m` for an integer `m` within one half of `n × factor` (round to
nearest; ties go to the even integer, Python's `round`, as the data point
`n = 5, factor = 1/2 ↦ 2` pins down); in particular the three documented data
points hold. -/
theorem compute_aug_count_spec :
    (∀ (n : ℕ) (f : ℚ), f ≤ 0 → compute_aug_count n f = 0) ∧
    (∀ (n : ℕ) (f : ℚ), 0 < f →
      ∃ m : ℤ, compute_aug_count n f = max 1 m.toNat ∧
        |(m : ℚ) - (n : ℚ) * f| ≤ 1 / 2) ∧
    compute_aug_count 10 (mkRat 1 2) = 5 ∧
    compute_aug_count 3 (mkRat 1 10) = 1 ∧
    compute_aug_count 100 0 = 0 ∧
    compute_aug_count 5 (mkRat 1 2) = 2 := by
  refine ⟨?_, ?_, by decide, by decide, by decide, by decide⟩
  · intro n f hf
    simp [compute_aug_count, hf]
  · intro n f hf
    refine ⟨roundHalfEven ((n : ℤ) * f.num) (f.den : ℤ), ?_, ?_⟩
    · simp [compute_aug_count, not_le.mpr hf]
    · have hden : (0 : ℤ) < (f.den : ℤ) := by exact_mod_cast f.pos
      have h := roundHalfEven_close ((n : ℤ) * f.num) (f.den : ℤ) hden
      have hval : (((n : ℤ) * f.num : ℤ) : ℚ) / ((f.den : ℤ) : ℚ) = (n : ℚ) * f := by
        conv_rhs => rw [← Rat.num_div_den f]
        push_cast
        ring
      rw [hval] at h
      exact h

/-- Witness for C3 at n = 3, factor one tenth. -/
theorem compute_aug_count_spec_witness :
    compute_aug_count 100 (mkRat (-1) 2) = 0 ∧
    ∃ m : ℤ, compute_aug_count 3 (mkRat 1 10) = max 1 m.toNat ∧
      |(m : ℚ) - (3 : ℚ) * mkRat 1 10| ≤ 1 / 2 :=
  ⟨compute_aug_count_spec.1 100 (mkRat (-1) 2) (by decide),
   compute_aug_count_spec.2.1 3 (mkRat 1 10) (by decide)⟩

/-! ## Structure of the number-masking scan -/

/-- A successful `tryNum` splits its input. -/
theorem tryNum_eq_append (l m rest : List Char) (h : tryNum l = some (m, rest)) :
    m ++ rest = l := by
  have hl := List.takeWhile_append_dropWhile Char.isDigit l
  simp only [tryNum] at h
  rcases hr1 : l.dropWhile Char.isDigit with _ | ⟨sep, r2⟩ <;> rw [hr1] at h hl
  · simp only [Option.some.injEq, Prod.mk.injEq] at h
    rw [← h.1, ← h.2, List.append_nil]
    rw [List.append_nil] at hl
    exact hl
  · simp only at h
    by_cases hg : ((sep = '.' || sep = ',') && !(r2.takeWhile Char.isDigit).isEmpty) = true
    · rw [if_pos hg] at h
      by_cases hb : headBlocked (r2.dropWhile Char.isDigit) = true
      · rw [if_pos hb] at h
        simp only [Option.some.injEq, Prod.mk.injEq] at h
        rw [← h.1, ← h.2]
        exact hl
      · rw [if_neg hb] at h
        simp only [Option.some.injEq, Prod.mk.injEq] at h
        rw [← h.1, ← h.2, List.append_assoc, List.cons_append,
          List.takeWhile_append_dropWhile]
        exact hl
    · rw [if_neg hg] at h
      by_cases hb : blocksNum sep = true
      · rw [if_pos hb] at h
        exact absurd h (by simp)
      · rw [if_neg hb] at h
        simp only [Option.some.injEq, Prod.mk.injEq] at h
        rw [← h.1, ← h.2]
        exact hl

/-- After a successful `tryNum` the lookahead holds: the character following
the matched token (if any) is neither a word character nor `#`. -/
theorem tryNum_rest_ok (l m rest : List Char) (h : tryNum l = some (m, rest)) :
    headBlocked rest = false := by
  simp only [tryNum] at h
  rcases hr1 : l.dropWhile Char.isDigit with _ | ⟨sep, r2⟩ <;> rw [hr1] at h
  · simp only [Option.some.injEq, Prod.mk.injEq] at h
    rw [← h.2]
    rfl
  · simp only at h
    by_cases hg : ((sep = '.' || sep = ',') && !(r2.takeWhile Char.isDigit).isEmpty) = true
    · rw [if_pos hg] at h
      by_cases hb : headBlocked (r2.dropWhile Char.isDigit) = true
      · rw [if_pos hb] at h
        simp only [Option.some.injEq, Prod.mk.injEq] at h
        rw [← h.2]
        have hsep : (sep = '.' || sep = ',') = true := (Bool.and_eq_true_iff.mp hg).1
        rcases Bool.or_eq_true_iff.mp hsep with hs | hs
        · rw [of_decide_eq_true hs]
          simp only [headBlocked]
          decide
        · rw [of_decide_eq_true hs]
          simp only [headBlocked]
          decide
      · rw [if_neg hb] at h
        simp only [Option.some.injEq, Prod.mk.injEq] at h
        rw [← h.2]
        exact Bool.eq_false_iff.mpr hb
    · rw [if_neg hg] at h
      by_cases hb : blocksNum sep = true
      · rw [if_pos hb] at h
        exact absurd h (by simp)
      · rw [if_neg hb] at h
        simp only [Option.some.injEq, Prod.mk.injEq] at h
        rw [← h.2]
        simp only [headBlocked]
        exact Bool.eq_false_iff.mpr hb

/-- When the scan position sits on a digit, a successful match is nonempty. -/
theorem tryNum_ne_nil (c : Char) (cs m rest : List Char) (hc : c.isDigit = true)
    (h : tryNum (c :: cs) = some (m, rest)) : m ≠ [] := by
  have hd1 : (c :: cs).takeWhile Char.isDigit = c :: cs.takeWhile Char.isDigit := by
    simp [List.takeWhile_cons, hc]
  simp only [tryNum, hd1] at h
  rcases hr1 : (c :: cs).dropWhile Char.isDigit with _ | ⟨sep, r2⟩ <;> rw [hr1] at h
  · simp only [Option.some.injEq, Prod.mk.injEq] at h
    rw [← h.1]
    simp
  · simp only at h
    by_cases hg : ((sep = '.' || sep = ',') && !(r2.takeWhile Char.isDigit).isEmpty) = true
    · rw [if_pos hg] at h
      by_cases hb : headBlocked (r2.dropWhile Char.isDigit) = true
      · rw [if_pos hb] at h
        simp only [Option.some.injEq, Prod.mk.injEq] at h
        rw [← h.1]
        simp
      · rw [if_neg hb] at h
        simp only [Option.some.injEq, Prod.mk.injEq] at h
        rw [← h.1]
        simp
    · rw [if_neg hg] at h
      by_cases hb : blocksNum sep = true
      · rw [if_pos hb] at h
        exact absurd h (by simp)
      · rw [if_neg hb] at h
        simp only [Option.some.injEq, Prod.mk.injEq] at h
        rw [← h.1]
        simp

/-- One step of the segment concatenation. -/
theorem segsJoin_cons (s : Seg) (rest : List Seg) :
    segsJoin (s :: rest) = segChars s ++ segsJoin rest := rfl

/-- The segments of the scan spell out the original text, for any fuel. -/
theorem numSplitF_join : ∀ (fuel : ℕ) (prev : Option Char) (l : List Char),
    segsJoin (numSplitF fuel prev l) = l := by
  intro fuel
  induction fuel with
  | zero =>
    intro prev l
    cases l <;> simp [numSplitF, segsJoin, segChars]
  | succ fuel ih =>
    intro prev l
    cases l with
    | nil => simp [numSplitF, segsJoin]
    | cons c cs =>
      simp only [numSplitF]
      by_cases hg : (!prevBlocked prev && c.isDigit) = true
      · rw [if_pos hg]
        rcases hm : tryNum (c :: cs) with _ | ⟨m, rest⟩
        · rw [segsJoin_cons, ih]
          rfl
        · rw [segsJoin_cons, ih]
          simp only [segChars]
          exact tryNum_eq_append _ _ _ hm
      · rw [if_neg hg]
        rw [segsJoin_cons, ih]
        rfl

/-- Context update for a nonempty segment. -/
theorem lastCtx_eq (prev : Option Char) (c : Char) (m : List Char) (hm : m ≠ []) :
    lastCtx prev m = some (m.getLastD c) := by
  rcases hx : m.getLast? with _ | x
  · exact absurd (List.getLast?_eq_none_iff.mp hx) hm
  · simp [lastCtx, hx, List.getLastD_eq_getLast?]

/-- The scan only ever matches tokens whose two lookarounds hold. -/
theorem numSplitF_boundaryOk : ∀ (fuel : ℕ) (prev : Option Char) (l : List Char),
    numBoundaryOk prev (numSplitF fuel prev l) := by
  intro fuel
  induction fuel with
  | zero =>
    intro prev l
    cases l <;> simp [numSplitF, numBoundaryOk]
  | succ fuel ih =>
    intro prev l
    cases l with
    | nil => simp [numSplitF, numBoundaryOk]
    | cons c cs =>
      simp only [numSplitF]
      by_cases hg : (!prevBlocked prev && c.isDigit) = true
      · rw [if_pos hg]
        obtain ⟨hg1, hg2⟩ := Bool.and_eq_true_iff.mp hg
        have hprev : prevBlocked prev = false := by
          simpa using hg1
        rcases hm : tryNum (c :: cs) with _ | ⟨m, rest⟩
        · simp only [numBoundaryOk, lastCtx, List.getLast?_singleton]
          exact ih _ _
        · have hne : m ≠ [] := tryNum_ne_nil c cs m rest hg2 hm
          refine ⟨hprev, hne, ?_, ?_⟩
          · rw [numSplitF_join]
            exact tryNum_rest_ok _ _ _ hm
          · rw [lastCtx_eq prev c m hne]
            exact ih _ _
      · rw [if_neg hg]
        simp only [numBoundaryOk, lastCtx, List.getLast?_singleton]
        exact ih _ _

/-- With probability 1 the replacement pass masks every matched token. -/
theorem maskSegs_one (segs : List Seg) : ∀ r : Rng, (maskSegs 1 r segs).1 = maskAll segs := by
  induction segs with
  | nil => intro r; rfl
  | cons s rest ih =>
    intro r
    cases s with
    | raw cs =>
      simp only [maskSegs, maskAll, List.foldr_cons]
      rw [← maskAll, ih]
    | num cs =>
      simp only [maskSegs, Rng.bern_one r, if_true, maskAll, List.foldr_cons]
      rw [← maskAll, ih]

/-- A replacement pass over raw-only segments returns the text unchanged (and
draws nothing). -/
theorem maskSegs_raw (p : ℚ) (segs : List Seg)
    (hall : ∀ s ∈ segs, ∃ cs, s = Seg.raw cs) :
    ∀ r : Rng, maskSegs p r segs = (segsJoin segs, r) := by
  induction segs with
  | nil => intro r; rfl
  | cons s rest ih =>
    intro r
    cases s with
    | raw cs =>
      simp only [maskSegs, segsJoin_cons, segChars]
      rw [ih (fun s hs => hall s (List.mem_cons_of_mem _ hs)) r]
    | num cs =>
      obtain ⟨cs2, hcs2⟩ := hall (Seg.num cs) (List.mem_cons_self _ _)
      exact absurd hcs2 (by simp)

/-- C6: the number-masking scan only matches tokens whose neighbours pass the
negative lookarounds — a digit run standing right next to a word character or
a `#` is never replaced, for every probability and generator state — and on
the documented tag example with p = 1 only the free-standing `30` becomes
`<NUM>` while the `1` inside `#Person1#` survives. -/
theorem mask_numbers_tag_safe :
    (∀ (prev : Option Char) (l : List Char), numBoundaryOk prev (numSplit prev l)) ∧
    (∀ r : Rng, (mask_numbers "#Person1# 제 나이는 30 살입니다" 1 r).1 =
      "#Person1# 제 나이는 <NUM> 살입니다") := by
  constructor
  · intro prev l
    exact numSplitF_boundaryOk _ _ _
  · intro r
    have h1 : ¬((1 : ℚ) ≤ 0) := by norm_num
    simp only [mask_numbers, if_neg h1]
    rcases hms : maskSegs 1 r (numSplit none ("#Person1# 제 나이는 30 살입니다").data)
      with ⟨out, r2⟩
    have hout := maskSegs_one (numSplit none ("#Person1# 제 나이는 30 살입니다").data) r
    rw [hms] at hout
    simp only [hms]
    simp only at hout
    rw [hout]
    decide

/-! ## C7: totality and no-match identity of the transforms -/

/-- A key that does not occur in the text leaves the text component of the
fold state untouched (the Bernoulli draw still advances the generator). -/
theorem replaceStep_id (p : ℚ) (key t : String) (r : Rng)
    (h : containsSub key.data t.data = false) :
    replaceStep p (t, r) key = (t, (r.bern p).2) := by
  simp [replaceStep, h]

/-- Folding the key loop over keys none of which occurs leaves the text
unchanged. -/
theorem replace_foldl_id (p : ℚ) :
    ∀ (keys : List String) (t : String) (r : Rng),
      (∀ key ∈ keys, containsSub key.data t.data = false) →
      (keys.foldl (replaceStep p) (t, r)).1 = t := by
  intro keys
  induction keys with
  | nil => intro t r _; rfl
  | cons k ks ih =>
    intro t r h
    rw [List.foldl_cons, replaceStep_id p k t r (h k (List.mem_cons_self _ _))]
    exact ih t _ (fun key hk => h key (List.mem_cons_of_mem _ hk))

/-- `replace_phrases` returns the text unchanged when no lexicon key occurs in
it. -/
theorem replace_phrases_id (text : String) (p : ℚ) (r : Rng)
    (h : ∀ key ∈ sortedKeys, containsSub key.data text.data = false) :
    (replace_phrases text p r).1 = text := by
  by_cases hp : p ≤ 0
  · simp [replace_phrases, hp]
  · simp only [replace_phrases, if_neg hp]
    exact replace_foldl_id p sortedKeys text r h

/-- `mask_numbers` returns the text unchanged when the scan finds no numeric
token. -/
theorem mask_numbers_id (text : String) (p : ℚ) (r : Rng)
    (h : ∀ s ∈ numSplit none text.data, s.isRaw = true) :
    (mask_numbers text p r).1 = text := by
  by_cases hp : p ≤ 0
  · simp [mask_numbers, hp]
  · simp only [mask_numbers, if_neg hp]
    have hraw : ∀ s ∈ numSplit none text.data, ∃ cs, s = Seg.raw cs := by
      intro s hs
      cases s with
      | raw cs => exact ⟨cs, rfl⟩
      | num cs => exact absurd (h _ hs) (by simp [Seg.isRaw])
    rw [maskSegs_raw p _ hraw r]
    show ({ data := segsJoin (numSplit none text.data) } : String) = text
    rw [numSplit, numSplitF_join]

/-- The character loop of the jitter passes over a text without `?`, `!` or
`,` unchanged, without drawing. -/
theorem jitterChars_id (p : ℚ) :
    ∀ (l : List Char) (r : Rng),
      (∀ c ∈ l, ¬(c = '?' ∨ c = '!' ∨ c = ',')) →
      jitterChars p r l = (l, r) := by
  intro l
  induction l with
  | nil => intro r _; rfl
  | cons c cs ih =>
    intro r h
    have hc := h c (List.mem_cons_self _ _)
    push_neg at hc
    obtain ⟨h1, h2, h3⟩ := hc
    have hb : (decide (c = '?') || decide (c = '!')) = false := by simp [h1, h2]
    simp only [jitterChars, hb, Bool.false_eq_true, if_false, if_neg h3]
    rw [ih r (fun x hx => h x (List.mem_cons_of_mem _ hx))]

/-- `punct_jitter` returns a text without `?`, `!` or `,` unchanged. -/
theorem punct_jitter_id (text : String) (p : ℚ) (r : Rng)
    (h : ∀ c ∈ text.data, ¬(c = '?' ∨ c = '!' ∨ c = ',')) :
    (punct_jitter text p r).1 = text := by
  by_cases hp : p ≤ 0
  · simp [punct_jitter, hp]
  · simp only [punct_jitter, if_neg hp]
    rw [jitterChars_id p text.data r h]

/-- A filler with no occurrence in the text is never deleted, whatever the
boundary context or the fuel. -/
theorem fillerScanF_no_occ :
    ∀ (fuel : ℕ) (f : List Char) (prev : Option Char) (l : List Char),
      containsSub f l = false → fillerScanF fuel f prev l = l := by
  intro fuel
  induction fuel with
  | zero => intro f prev l _; cases l <;> rfl
  | succ fuel ih =>
    intro f prev l h
    cases l with
    | nil => rfl
    | cons c cs =>
      simp only [containsSub, Bool.or_eq_false_iff] at h
      simp only [fillerScanF, h.1, Bool.and_false, Bool.false_and, Bool.false_eq_true,
        if_false]
      rw [ih f (some c) cs h.2]

/-- The filler loop leaves the text component unchanged when no filler occurs
in it. -/
theorem filler_foldl_id (p : ℚ) :
    ∀ (fs : List String) (t : List Char) (r : Rng),
      (∀ f ∈ fs, containsSub f.data t = false) →
      (fs.foldl (fillerStep p) (t, r)).1 = t := by
  intro fs
  induction fs with
  | nil => intro t r _; rfl
  | cons f fs ih =>
    intro t r h
    have hstep : fillerStep p (t, r) f = (t, (r.bern p).2) := by
      simp only [fillerStep]
      rw [fillerScan, fillerScanF_no_occ _ _ _ _ (h f (List.mem_cons_self _ _))]
      simp
    rw [List.foldl_cons, hstep]
    exact ih t _ (fun g hg => h g (List.mem_cons_of_mem _ hg))

/-- `drop_fillers` on a text containing no filler reduces to the whitespace
normalization alone. -/
theorem drop_fillers_nofiller (text : String) (p : ℚ) (r : Rng) (hp : 0 < p)
    (h : ∀ f ∈ FILLERS, containsSub f.data text.data = false) :
    (drop_fillers text p r).1 = ⟨normalizeWs text.data⟩ := by
  rw [drop_fillers, if_neg (not_le.mpr hp)]
  rcases hf : FILLERS.foldl (fillerStep p) (text.data, r) with ⟨out, r2⟩
  have := filler_foldl_id p FILLERS text.data r h
  rw [hf] at this
  simp only at this
  rw [this]

/-- C7 (amended): all four transforms are total Lean functions; with any
`p > 0`, `replace_phrases` with no key present, `mask_numbers` with no numeric
match and `punct_jitter` with no `?`/`!`/`,` return the input unchanged; and
`drop_fillers` with no filler occurrence returns the whitespace-normalized,
stripped input — not necessarily the input itself — while on the empty string
every transform is the identity. -/
theorem transforms_no_match_identity :
    (∀ (text : String) (p : ℚ) (r : Rng),
      (∀ key ∈ sortedKeys, containsSub key.data text.data = false) →
      (replace_phrases text p r).1 = text) ∧
    (∀ (text : String) (p : ℚ) (r : Rng),
      (∀ s ∈ numSplit none text.data, s.isRaw = true) →
      (mask_numbers text p r).1 = text) ∧
    (∀ (text : String) (p : ℚ) (r : Rng),
      (∀ c ∈ text.data, ¬(c = '?' ∨ c = '!' ∨ c = ',')) →
      (punct_jitter text p r).1 = text) ∧
    (∀ (text : String) (p : ℚ) (r : Rng), 0 < p →
      (∀ f ∈ FILLERS, containsSub f.data text.data = false) →
      (drop_fillers text p r).1 = ⟨normalizeWs text.data⟩) ∧
    (∀ (p : ℚ) (r : Rng),
      (replace_phrases "" p r).1 = "" ∧ (mask_numbers "" p r).1 = "" ∧
      (drop_fillers "" p r).1 = "" ∧ (punct_jitter "" p r).1 = "") := by
  refine ⟨replace_phrases_id, mask_numbers_id, punct_jitter_id,
    drop_fillers_nofiller, ?_⟩
  intro p r
  refine ⟨replace_phrases_id "" p r (by decide), mask_numbers_id "" p r (by decide),
    ?_, punct_jitter_id "" p r (by decide)⟩
  by_cases hp : p ≤ 0
  · simp [drop_fillers, hp]
  · rw [drop_fillers_nofiller "" p r (not_le.mp hp) (by decide)]
    rfl

/-- Counterexample for C7 as stated: `"a  b"` contains no filler (nothing for
`drop_fillers` to act on), yet with p = 1 the text comes back changed, because
the whitespace normalization runs regardless. -/
theorem drop_fillers_normalizes_counterexample :
    (∀ f ∈ FILLERS, containsSub f.data "a  b".data = false) ∧
    (drop_fillers "a  b" 1 (seedRng 42)).1 = "a b" ∧
    (drop_fillers "a  b" 1 (seedRng 42)).1 ≠ "a  b" := by
  refine ⟨by decide, ?_, ?_⟩
  · rw [drop_fillers_nofiller "a  b" 1 (seedRng 42) (by norm_num) (by decide)]
    decide
  · rw [drop_fillers_nofiller "a  b" 1 (seedRng 42) (by norm_num) (by decide)]
    decide

/-- Witness for C7 on concrete no-match inputs. -/
theorem transforms_no_match_identity_witness :
    (replace_phrases "xy" (mkRat 3 10) (seedRng 1)).1 = "xy" ∧
    (mask_numbers "xy" (mkRat 2 5) (seedRng 1)).1 = "xy" ∧
    (punct_jitter "xy" (mkRat 1 5) (seedRng 1)).1 = "xy" ∧
    (drop_fillers "x  y" (mkRat 1 2) (seedRng 1)).1 = ⟨normalizeWs "x  y".data⟩ :=
  ⟨transforms_no_match_identity.1 "xy" (mkRat 3 10) (seedRng 1) (by decide),
   transforms_no_match_identity.2.1 "xy" (mkRat 2 5) (seedRng 1) (by decide),
   transforms_no_match_identity.2.2.1 "xy" (mkRat 1 5) (seedRng 1) (by decide),
   transforms_no_match_identity.2.2.2.1 "x  y" (mkRat 1 2) (seedRng 1) (by decide) (by decide)⟩

/-! ## C5: what filler removal deletes -/

/-- Dropping a prefix cannot lengthen a list. -/
theorem length_dropWhile_le (p : Char → Bool) :
    ∀ l : List Char, (l.dropWhile p).length ≤ l.length := by
  intro l
  induction l with
  | nil => simp
  | cons c cs ih =>
    by_cases hc : p c = true
    · simp only [List.dropWhile_cons, hc, if_true, List.length_cons]
      omega
    · simp [List.dropWhile_cons, hc]

/-- The fuelled scan realizes the declarative description whenever the fuel
covers the text (every deletion consumes at least the nonempty filler). -/
theorem fillerScanF_del (f : List Char) (hf : f ≠ []) :
    ∀ (fuel : ℕ) (prev : Option Char) (l : List Char), l.length ≤ fuel →
      FillerDel f prev l (fillerScanF fuel f prev l) := by
  have hfe : (!f.isEmpty) = true := by
    cases f with
    | nil => exact absurd rfl hf
    | cons a as => rfl
  intro fuel
  induction fuel with
  | zero =>
    intro prev l hlen
    cases l with
    | nil => exact FillerDel.nil prev
    | cons c cs => simp at hlen
  | succ fuel ih =>
    intro prev l hlen
    cases l with
    | nil => exact FillerDel.nil prev
    | cons c cs =>
      have hguard :
          (atBoundary prev && f.isPrefixOf (c :: cs) && !f.isEmpty) =
            (atBoundary prev && f.isPrefixOf (c :: cs)) := by
        rw [hfe, Bool.and_true]
      by_cases hg : (atBoundary prev && f.isPrefixOf (c :: cs)) = true
      · have hlen2 :
            (((c :: cs).drop f.length).dropWhile trailPunct).length ≤ fuel := by
          have h1 : (((c :: cs).drop f.length).dropWhile trailPunct).length ≤
              ((c :: cs).drop f.length).length := length_dropWhile_le trailPunct _
          have h2 : ((c :: cs).drop f.length).length ≤ cs.length := by
            rw [List.length_drop]
            have : 1 ≤ f.length := by
              cases f with
              | nil => exact absurd rfl hf
              | cons a as => simp
            simp only [List.length_cons]
            omega
          have h3 : cs.length ≤ fuel := by
            simpa using hlen
          omega
        have hstep : fillerScanF (fuel + 1) f prev (c :: cs) =
            fillerScanF fuel f
              (some ((f ++ ((c :: cs).drop f.length).takeWhile trailPunct).getLastD c))
              (((c :: cs).drop f.length).dropWhile trailPunct) := by
          simp [fillerScanF, hg, hfe]
        rw [hstep]
        exact FillerDel.del prev c cs _ hg (ih _ _ hlen2)
      · have hg' : (atBoundary prev && f.isPrefixOf (c :: cs)) = false :=
          Bool.eq_false_iff.mpr hg
        have hstep : fillerScanF (fuel + 1) f prev (c :: cs) =
            c :: fillerScanF fuel f (some c) cs := by
          simp [fillerScanF, hg', hfe]
        rw [hstep]
        exact FillerDel.keep prev c cs _ hg' (ih _ _ (by simpa using hlen))

/-- The declarative description determines the output uniquely. -/
theorem FillerDel_det (f : List Char) :
    ∀ (prev : Option Char) (l o1 o2 : List Char),
      FillerDel f prev l o1 → FillerDel f prev l o2 → o1 = o2 := by
  intro prev l o1 o2 h1
  induction h1 generalizing o2 with
  | nil prev =>
    intro h2
    cases h2
    rfl
  | keep prev c cs out hg hrec ih =>
    intro h2
    cases h2 with
    | keep _ _ _ out2 hg2 hrec2 => rw [ih _ hrec2]
    | del _ _ _ out2 hg2 hrec2 => rw [hg] at hg2; exact absurd hg2 (by simp)
  | del prev c cs out hg hrec ih =>
    intro h2
    cases h2 with
    | keep _ _ _ out2 hg2 hrec2 => rw [hg] at hg2; exact absurd hg2 (by simp)
    | del _ _ _ out2 hg2 hrec2 => exact ih _ hrec2

/-- With probability 1 every per-filler trial fires. -/
theorem filler_foldl_one :
    ∀ (fs : List String) (t : List Char) (r : Rng),
      (fs.foldl (fillerStep 1) (t, r)).1 =
        fs.foldl (fun t f => fillerScan f.data t) t := by
  intro fs
  induction fs with
  | nil => intro t r; rfl
  | cons f fs ih =>
    intro t r
    have hstep : fillerStep 1 (t, r) f = (fillerScan f.data t, (r.bern 1).2) := by
      simp [fillerStep, Rng.bern_one r]
    rw [List.foldl_cons, hstep, List.foldl_cons]
    exact ih _ _

/-- With probability 1, `drop_fillers` deletes every filler's matches in list
order and then normalizes whitespace, for every generator state. -/
theorem drop_fillers_allpass (text : String) (r : Rng) :
    (drop_fillers text 1 r).1 =
      ⟨normalizeWs (FILLERS.foldl (fun t f => fillerScan f.data t) text.data)⟩ := by
  have h1 : ¬((1 : ℚ) ≤ 0) := by norm_num
  rw [drop_fillers, if_neg h1]
  rcases hf : FILLERS.foldl (fillerStep 1) (text.data, r) with ⟨out, r2⟩
  have hout := filler_foldl_one FILLERS text.data r
  rw [hf] at hout
  simp only at hout
  simp only [hf, hout]

/-- C5 (amended): when its per-filler trial succeeds, the removal pass deletes
exactly the leftmost occurrences of the filler that start at a word boundary,
each together with its trailing `,`/`.`/space run — including occurrences that
are a proper prefix of a longer word — and keeps every other position; an
occurrence directly preceded by a word character is never deleted. The scan
satisfies the declarative description, the description is deterministic, and
concretely (p = 1, every state): a standalone `음` is deleted, the word-prefix
`음` of `음악` is deleted as well, and the embedded `음` of `마음` is kept. -/
theorem drop_fillers_boundary_exact :
    (∀ f : List Char, f ≠ [] → ∀ (prev : Option Char) (l : List Char),
      FillerDel f prev l (fillerScanF l.length f prev l)) ∧
    (∀ (f : List Char) (prev : Option Char) (l o1 o2 : List Char),
      FillerDel f prev l o1 → FillerDel f prev l o2 → o1 = o2) ∧
    (∀ r : Rng, (drop_fillers "음 안녕하세요" 1 r).1 = "안녕하세요" ∧
      (drop_fillers "음악" 1 r).1 = "악" ∧
      (drop_fillers "마음" 1 r).1 = "마음") := by
  refine ⟨?_, ?_, ?_⟩
  · intro f hf prev l
    exact fillerScanF_del f hf l.length prev l le_rfl
  · intro f prev l o1 o2 h1 h2
    exact FillerDel_det f prev l o1 o2 h1 h2
  · intro r
    refine ⟨?_, ?_, ?_⟩
    · rw [drop_fillers_allpass]
      decide
    · rw [drop_fillers_allpass]
      decide
    · rw [drop_fillers_allpass]
      decide

/-- Counterexample for C5 as stated: `음악` holds no standalone occurrence of
any filler, yet with a succeeding trial (p = 1) `drop_fillers` deletes the
word-initial `음` and returns `악`. -/
theorem drop_fillers_whole_word_counterexample :
    (drop_fillers "음악" 1 (seedRng 42)).1 = "악" ∧
    (drop_fillers "음악" 1 (seedRng 42)).1 ≠ "음악" := by
  constructor
  · rw [drop_fillers_allpass]
    decide
  · rw [drop_fillers_allpass]
    decide

/-- Witness for C5 on the filler `음` and the text `음악`. -/
theorem drop_fillers_boundary_exact_witness :
    FillerDel "음".data none "음악".data
      (fillerScanF "음악".data.length "음".data none "음악".data) ∧
    (drop_fillers "음악" 1 (seedRng 7)).1 = "악" := by
  constructor
  · exact drop_fillers_boundary_exact.1 "음".data (by decide) none "음악".data
  · exact (drop_fillers_boundary_exact.2.2 (seedRng 7)).2.1

/-! ## C2: shape of the assembled output -/

/-- With a nonempty range, sampling always succeeds and yields `m` indices
into `[0, n)`. -/
theorem sampleIndices_ok (n : ℕ) (hn : n ≠ 0) :
    ∀ (m : ℕ) (r : Rng), ∃ l r2, sampleIndices n r m = some (l, r2) ∧
      l.length = m ∧ ∀ i ∈ l, i < n := by
  intro m
  induction m with
  | zero => intro r; exact ⟨[], r, rfl, rfl, by simp⟩
  | succ m ih =>
    intro r
    obtain ⟨l, r2, h1, h2, h3⟩ := ih (r.range n).2
    refine ⟨(r.range n).1 :: l, r2, ?_, by simp [h2], ?_⟩
    · rw [sampleIndices]
      rw [if_neg hn, h1]
    · refine List.forall_mem_cons.mpr ⟨?_, h3⟩
      exact Rng.range_lt r n hn

/-- One synthetic row per sampled index. -/
theorem buildAugRows_length (df : List Row) (cfg : AugmentConfig) :
    ∀ (idxs : List ℕ) (r : Rng) (i : ℕ),
      (buildAugRows df cfg r idxs i).1.length = idxs.length := by
  intro idxs
  induction idxs with
  | nil => intro r i; rfl
  | cons j js ih =>
    intro r i
    simp only [buildAugRows, List.length_cons, ih]

/-- The k-th generated row is the synthetic row of the k-th sampled source
row at generation index `i0 + k`, built from some intermediate generator
state. -/
theorem buildAugRows_getD (df : List Row) (cfg : AugmentConfig) :
    ∀ (idxs : List ℕ) (r : Rng) (i0 k : ℕ), k < idxs.length →
      ∃ rg, (buildAugRows df cfg r idxs i0).1.getD k default =
        mkAugRow (df.getD (idxs.getD k 0) default) (i0 + k) cfg rg := by
  intro idxs
  induction idxs with
  | nil =>
    intro r i0 k hk
    simp at hk
  | cons j js ih =>
    intro r i0 k hk
    cases k with
    | zero =>
      refine ⟨r, ?_⟩
      simp [buildAugRows, mkAugRow]
    | succ k =>
      obtain ⟨rg, hrg⟩ :=
        ih (augment_dialogue (df.getD j default).dialogue cfg r).2 (i0 + 1) k
          (by simpa using hk)
      refine ⟨rg, ?_⟩
      simp only [buildAugRows, List.getD_cons_succ]
      rw [hrg]
      have : i0 + 1 + k = i0 + (k + 1) := by omega
      rw [this]

/-- C2: on a successful run with `m > 0`, the output is exactly the original
(limited) rows, unchanged and in order, followed by the `m` synthetic rows in
generation order; the k-th synthetic row copies the summary and the topic of
its sampled source row verbatim, carries the derived id, and its dialogue is
the pipeline's output on the source dialogue. -/
theorem run_augment_output_shape (input : Frame) (path : String) (factor : ℚ)
    (seed : ℤ) (limit : Option ℕ)
    (hcols : findMissing input.cols = none)
    (hn : (srcRows limit input.rows).length ≠ 0)
    (hm : compute_aug_count (srcRows limit input.rows).length factor ≠ 0) :
    ∃ (idxs : List ℕ) (r1 : Rng),
      sampleIndices (srcRows limit input.rows).length (seedRng seed)
          (compute_aug_count (srcRows limit input.rows).length factor) =
        some (idxs, r1) ∧
      idxs.length = compute_aug_count (srcRows limit input.rows).length factor ∧
      (∀ i ∈ idxs, i < (srcRows limit input.rows).length) ∧
      run_augment input path factor seed limit = .ok
        ⟨srcRows limit input.rows ++
            (buildAugRows (srcRows limit input.rows) (defaultConfig seed) r1 idxs 0).1,
          (srcRows limit input.rows).length,
          (srcRows limit input.rows).length +
            compute_aug_count (srcRows limit input.rows).length factor⟩ ∧
      (∀ k, k < compute_aug_count (srcRows limit input.rows).length factor →
        ∃ rg,
          (buildAugRows (srcRows limit input.rows) (defaultConfig seed) r1 idxs 0).1.getD
              k default =
            mkAugRow ((srcRows limit input.rows).getD (idxs.getD k 0) default) k
              (defaultConfig seed) rg) := by
  obtain ⟨idxs, r1, hs, hlen, hbound⟩ :=
    sampleIndices_ok (srcRows limit input.rows).length hn
      (compute_aug_count (srcRows limit input.rows).length factor) (seedRng seed)
  refine ⟨idxs, r1, hs, hlen, hbound, ?_, ?_⟩
  · rw [run_augment, hcols]
    simp only [if_neg hm, hs]
    have houtlen :
        (srcRows limit input.rows ++
          (buildAugRows (srcRows limit input.rows) (defaultConfig seed) r1 idxs 0).1).length =
        (srcRows limit input.rows).length +
          compute_aug_count (srcRows limit input.rows).length factor := by
      rw [List.length_append, buildAugRows_length, hlen]
    rw [houtlen]
  · intro k hk
    have hk2 : k < idxs.length := by rw [hlen]; exact hk
    obtain ⟨rg, hrg⟩ :=
      buildAugRows_getD (srcRows limit input.rows) (defaultConfig seed) idxs r1 0 k hk2
    exact ⟨rg, by simpa using hrg⟩

/-- Witness for C2 on a one-row dataset with factor 1. -/
theorem run_augment_output_shape_witness :
    ∃ (idxs : List ℕ) (r1 : Rng),
      sampleIndices (srcRows none wFrame.rows).length (seedRng 42)
          (compute_aug_count (srcRows none wFrame.rows).length 1) =
        some (idxs, r1) ∧
      idxs.length = compute_aug_count (srcRows none wFrame.rows).length 1 ∧
      (∀ i ∈ idxs, i < (srcRows none wFrame.rows).length) ∧
      run_augment wFrame "in.csv" 1 42 none = .ok
        ⟨srcRows none wFrame.rows ++
            (buildAugRows (srcRows none wFrame.rows) (defaultConfig 42) r1 idxs 0).1,
          (srcRows none wFrame.rows).length,
          (srcRows none wFrame.rows).length +
            compute_aug_count (srcRows none wFrame.rows).length 1⟩ ∧
      (∀ k, k < compute_aug_count (srcRows none wFrame.rows).length 1 →
        ∃ rg,
          (buildAugRows (srcRows none wFrame.rows) (defaultConfig 42) r1 idxs 0).1.getD
              k default =
            mkAugRow ((srcRows none wFrame.rows).getD (idxs.getD k 0) default) k
              (defaultConfig 42) rg) :=
  run_augment_output_shape wFrame "in.csv" 1 42 none (by decide) (by decide) (by decide)

/-! ## C8: uniqueness of the output ids -/

/-- Every produced digit character is a decimal digit. -/
theorem digitChar_isDigit : ∀ n : ℕ, (digitChar n).isDigit = true := by
  intro n
  rcases n with _ | _ | _ | _ | _ | _ | _ | _ | _ | n <;> rfl

/-- The digit character of a value below ten stands for that value. -/
theorem digitChar_val (n : ℕ) (h : n < 10) : (digitChar n).toNat - 48 = n := by
  interval_cases n <;> decide

/-- Appending one digit multiplies the value by ten. -/
theorem digitsVal_append (l : List Char) (c : Char) :
    digitsVal (l ++ [c]) = 10 * digitsVal l + (c.toNat - 48) := by
  simp [digitsVal, List.foldl_append]

/-- With sufficient fuel the numeral evaluates back to its number. -/
theorem natDigitsF_val : ∀ (fuel n : ℕ), n ≤ fuel → digitsVal (natDigitsF fuel n) = n := by
  intro fuel
  induction fuel with
  | zero =>
    intro n hn
    have : n = 0 := Nat.le_zero.mp hn
    subst this
    decide
  | succ fuel ih =>
    intro n hn
    rw [natDigitsF]
    by_cases h10 : n < 10
    · rw [if_pos h10]
      have : digitsVal [digitChar n] = (digitChar n).toNat - 48 := by
        simp [digitsVal]
      rw [this, digitChar_val n h10]
    · rw [if_neg h10]
      have hdiv : n / 10 ≤ fuel := by
        have hlt : n / 10 < n := Nat.div_lt_self (by omega) (by norm_num)
        omega
      rw [digitsVal_append, ih (n / 10) hdiv,
        digitChar_val (n % 10) (Nat.mod_lt _ (by norm_num))]
      exact Nat.div_add_mod n 10

/-- The decimal numeral evaluates back to its number. -/
theorem natDigits_val (n : ℕ) : digitsVal (natDigits n) = n :=
  natDigitsF_val n n le_rfl

/-- Decimal numerals are injective. -/
theorem natDigits_inj (a b : ℕ) (h : natDigits a = natDigits b) : a = b := by
  have ha := natDigits_val a
  rw [h, natDigits_val] at ha
  exact ha.symm

/-- Every character of a numeral is a digit. -/
theorem natDigitsF_digits : ∀ (fuel n : ℕ) (c : Char),
    c ∈ natDigitsF fuel n → c.isDigit = true := by
  intro fuel
  induction fuel with
  | zero =>
    intro n c hc
    rw [show natDigitsF 0 n = [digitChar (n % 10)] from rfl] at hc
    rcases List.mem_singleton.mp hc with rfl
    exact digitChar_isDigit _
  | succ fuel ih =>
    intro n c hc
    rw [show natDigitsF (fuel + 1) n =
        if n < 10 then [digitChar n]
        else natDigitsF fuel (n / 10) ++ [digitChar (n % 10)] from rfl] at hc
    by_cases h10 : n < 10
    · rw [if_pos h10] at hc
      rcases List.mem_singleton.mp hc with rfl
      exact digitChar_isDigit _
    · rw [if_neg h10] at hc
      rcases List.mem_append.mp hc with hc | hc
      · exact ih _ _ hc
      · rcases List.mem_singleton.mp hc with rfl
        exact digitChar_isDigit _

/-- Numerals are nonempty. -/
theorem natDigits_ne_nil (n : ℕ) : natDigits n ≠ [] := by
  intro h
  have hv := natDigits_val n
  rw [h] at hv
  have h0 : n = 0 := by simpa [digitsVal] using hv.symm
  subst h0
  exact absurd h (by decide)

/-- Taking while over a block of satisfying characters followed by a failing
one recovers exactly the block. -/
theorem takeWhile_all_append (p : Char → Bool) :
    ∀ (l : List Char) (c : Char) (r : List Char),
      (∀ x ∈ l, p x = true) → p c = false →
      (l ++ c :: r).takeWhile p = l := by
  intro l
  induction l with
  | nil =>
    intro c r _ hc
    simp [List.takeWhile_cons, hc]
  | cons a as ih =>
    intro c r hall hc
    have ha : p a = true := hall a (List.mem_cons_self _ _)
    simp only [List.cons_append, List.takeWhile_cons, ha, if_true]
    rw [ih c r (fun x hx => hall x (List.mem_cons_of_mem _ hx)) hc]

/-- Two derived ids with distinct generation indices never collide, whatever
the two source ids are: reading the strings from the right, the decimal tail
is delimited by the non-digit `g` of `_aug`, so equal strings force equal
numerals and hence equal indices. -/
theorem ensure_unique_fname_ne (s1 s2 : String) (i j : ℕ) (hij : i ≠ j) :
    ensure_unique_fname s1 i ≠ ensure_unique_fname s2 j := by
  intro heq
  apply hij
  apply natDigits_inj
  have hdata := congrArg String.data heq
  simp only [ensure_unique_fname, String.data_append] at hdata
  have hrev := congrArg List.reverse hdata
  simp only [List.reverse_append] at hrev
  have hg : ("_aug".data.reverse : List Char) = 'g' :: ['u', 'a', '_'] := rfl
  rw [hg] at hrev
  have htw := congrArg (List.takeWhile Char.isDigit) hrev
  have hside : ∀ (k : ℕ) (s : List Char),
      ((natDigits k).reverse ++ 'g' :: 'u' :: 'a' :: '_' :: s).takeWhile Char.isDigit =
        (natDigits k).reverse := by
    intro k s
    apply takeWhile_all_append
    · intro x hx
      exact natDigitsF_digits _ _ _ (List.mem_reverse.mp hx)
    · decide
  simp only [List.cons_append, List.append_assoc, List.nil_append] at htw
  rw [hside i s1.data.reverse, hside j s2.data.reverse] at htw
  exact List.reverse_injective htw

/-- Every generated row carries a derived id with generation index at least
the starting one. -/
theorem buildAugRows_fname_mem (df : List Row) (cfg : AugmentConfig) :
    ∀ (idxs : List ℕ) (r : Rng) (i0 : ℕ) (x : Row),
      x ∈ (buildAugRows df cfg r idxs i0).1 →
      ∃ (s : String) (k : ℕ), i0 ≤ k ∧ x.fname = ensure_unique_fname s k := by
  intro idxs
  induction idxs with
  | nil =>
    intro r i0 x hx
    simp [buildAugRows] at hx
  | cons j js ih =>
    intro r i0 x hx
    rcases List.mem_cons.mp hx with hx | hx
    · exact ⟨(df.getD j default).fname, i0, le_rfl, by rw [hx]⟩
    · obtain ⟨s, k, hk, hs⟩ := ih _ (i0 + 1) x hx
      exact ⟨s, k, by omega, hs⟩

/-- The derived ids of one generation loop are pairwise distinct: their
generation indices strictly increase. -/
theorem buildAugRows_fnames_nodup (df : List Row) (cfg : AugmentConfig) :
    ∀ (idxs : List ℕ) (r : Rng) (i0 : ℕ),
      ((buildAugRows df cfg r idxs i0).1.map Row.fname).Nodup := by
  intro idxs
  induction idxs with
  | nil =>
    intro r i0
    simp [buildAugRows]
  | cons j js ih =>
    intro r i0
    rw [show (buildAugRows df cfg r (j :: js) i0).1 =
        ⟨ensure_unique_fname (df.getD j default).fname i0,
          (augment_dialogue (df.getD j default).dialogue cfg r).1,
          (df.getD j default).summary, (df.getD j default).topic⟩ ::
        (buildAugRows df cfg (augment_dialogue (df.getD j default).dialogue cfg r).2 js
          (i0 + 1)).1 from rfl]
    rw [List.map_cons, List.nodup_cons]
    refine ⟨?_, ih _ _⟩
    intro hmem
    obtain ⟨x, hx, hfx⟩ := List.mem_map.mp hmem
    obtain ⟨s, k, hk, hs⟩ := buildAugRows_fname_mem df cfg js _ (i0 + 1) x hx
    rw [hs] at hfx
    exact ensure_unique_fname_ne s (df.getD j default).fname k i0 (by omega) hfx

/-- C8 (amended): the synthetic ids of one run are pairwise distinct
unconditionally; and all output ids are pairwise distinct provided the
original ids are pairwise distinct and, additionally, no original id is
itself of the derived shape `{string}_aug{digits}` — without that proviso an
original id such as `x_aug0` can collide with the synthetic id derived from
original `x` at generation index 0. -/
theorem run_augment_fname_nodup :
    (∀ (input : Frame) (path : String) (factor : ℚ) (seed : ℤ) (limit : Option ℕ),
      (input.rows.map Row.fname).Nodup →
      (∀ fn ∈ input.rows.map Row.fname, ∀ (s : String) (i : ℕ),
        fn ≠ s ++ "_aug" ++ ⟨natDigits i⟩) →
      (outFnames (run_augment input path factor seed limit)).Nodup) ∧
    (∀ (s1 s2 : String) (i j : ℕ), i ≠ j →
      ensure_unique_fname s1 i ≠ ensure_unique_fname s2 j) := by
  constructor
  · intro input path factor seed limit hnd hshape
    have hsub : (srcRows limit input.rows).Sublist input.rows := by
      cases limit with
      | none => exact List.Sublist.refl _
      | some k => exact List.take_sublist _ _
    have hdfnd : ((srcRows limit input.rows).map Row.fname).Nodup :=
      hnd.sublist (hsub.map Row.fname)
    have hdfshape : ∀ fn ∈ (srcRows limit input.rows).map Row.fname,
        ∀ (s : String) (i : ℕ), fn ≠ s ++ "_aug" ++ ⟨natDigits i⟩ := by
      intro fn hfn
      exact hshape fn ((hsub.map Row.fname).mem hfn)
    rw [run_augment]
    cases hfm : findMissing input.cols with
    | some c =>
      simp only [outFnames]
      exact List.nodup_nil
    | none =>
      simp only
      by_cases hm : compute_aug_count (srcRows limit input.rows).length factor = 0
      · rw [if_pos hm]
        simpa [outFnames] using hdfnd
      · rw [if_neg hm]
        rcases hs : sampleIndices (srcRows limit input.rows).length (seedRng seed)
            (compute_aug_count (srcRows limit input.rows).length factor)
          with _ | ⟨idxs, r1⟩
        · simp only [outFnames]
          exact List.nodup_nil
        · simp only [outFnames, List.map_append]
          refine List.Nodup.append hdfnd
            (buildAugRows_fnames_nodup (srcRows limit input.rows) (defaultConfig seed)
              idxs r1 0) ?_
          intro a ha hb
          obtain ⟨x, hx, hfx⟩ := List.mem_map.mp hb
          obtain ⟨s, k, _, hsk⟩ :=
            buildAugRows_fname_mem (srcRows limit input.rows) (defaultConfig seed)
              idxs r1 0 x hx
          apply hdfshape a ha s k
          rw [← hfx, hsk]
          rfl
  · intro s1 s2 i j hij
    exact ensure_unique_fname_ne s1 s2 i j hij

/-- Evaluation rule of `run_augment` on the sampling branch, driven by a
certified sample. -/
theorem run_augment_eval (input : Frame) (path : String) (factor : ℚ) (seed : ℤ)
    (limit : Option ℕ) (idxs : List ℕ) (r1 : Rng)
    (hcols : findMissing input.cols = none)
    (hm : compute_aug_count (srcRows limit input.rows).length factor ≠ 0)
    (hs : sampleIndices (srcRows limit input.rows).length (seedRng seed)
        (compute_aug_count (srcRows limit input.rows).length factor) = some (idxs, r1)) :
    run_augment input path factor seed limit = .ok
      ⟨srcRows limit input.rows ++
          (buildAugRows (srcRows limit input.rows) (defaultConfig seed) r1 idxs 0).1,
        (srcRows limit input.rows).length,
        (srcRows limit input.rows ++
          (buildAugRows (srcRows limit input.rows) (defaultConfig seed) r1 idxs 0).1).length⟩ := by
  rw [run_augment, hcols]
  simp only [if_neg hm, hs]

/-- Counterexample for C8 as stated: the original ids `x` and `x_aug0` are
pairwise distinct, yet the run with factor one half and seed 42 samples one
row. The seeded generator's first 2-bit draw is rejected by `_randbelow`
(top bits `10` of the first word) and the second draws 0, so row `x` is
sampled at generation index 0, the derived synthetic id is `x_aug0`, and the
output ids are no longer pairwise distinct. -/
theorem fname_collision_counterexample :
    ((collisionFrame.rows.map Row.fname).Nodup) ∧
    outFnames (run_augment collisionFrame "in.csv" (mkRat 1 2) 42 none) =
      ["x", "x_aug0", "x_aug0"] ∧
    ¬ (outFnames (run_augment collisionFrame "in.csv" (mkRat 1 2) 42 none)).Nodup := by
  have hs : sampleIndices (srcRows none collisionFrame.rows).length (seedRng 42)
      (compute_aug_count (srcRows none collisionFrame.rows).length (mkRat 1 2)) =
      some ([0], ⟨mtSeed42T, 2⟩) := by
    rw [show (srcRows none collisionFrame.rows).length = 2 from rfl,
      show compute_aug_count 2 (mkRat 1 2) = 1 from rfl, seedRng_42]
    exact sample_42
  have h2 : outFnames (run_augment collisionFrame "in.csv" (mkRat 1 2) 42 none) =
      ["x", "x_aug0", "x_aug0"] := by
    rw [run_augment_eval collisionFrame "in.csv" (mkRat 1 2) 42 none [0] ⟨mtSeed42T, 2⟩
      (by decide) (by decide) hs]
    decide
  refine ⟨by decide, h2, ?_⟩
  rw [h2]
  decide

/-- Witness for C8 on a two-row frame with plain ids. -/
theorem run_augment_fname_nodup_witness :
    (outFnames (run_augment nodupFrame "in.csv" (mkRat 1 2) 42 none)).Nodup ∧
    ensure_unique_fname "a" 0 ≠ ensure_unique_fname "b" 1 := by
  constructor
  · apply run_augment_fname_nodup.1 nodupFrame "in.csv" (mkRat 1 2) 42 none (by decide)
    intro fn hfn s i heq
    have hfn2 : fn = "a" ∨ fn = "b" := by
      simpa [nodupFrame] using hfn
    have hlen := congrArg String.length heq
    rw [String.length_append, String.length_append] at hlen
    have h1 : fn.length = 1 := by
      rcases hfn2 with h | h <;> subst h <;> rfl
    have h2 : 1 ≤ (String.mk (natDigits i)).length := by
      show 1 ≤ (natDigits i).length
      cases hd : natDigits i with
      | nil => exact absurd hd (natDigits_ne_nil i)
      | cons a as => simp
    have h3 : ("_aug" : String).length = 4 := rfl
    omega
  · exact run_augment_fname_nodup.2 "a" "b" 0 1 (by decide)
